import Mathlib

/-!
# Block-information query helpers (`src/blockInfo/query.go`)

A shallow embedding of the eight query wrappers of package `blockinfo` and of
the parts of their environment they touch:

* Go values: bytes, strings (byte sequences), slices with a `nil` value,
  `uint64`, pointers (`Option`, `none` is the nil pointer) and `error`
  values (`Option GoError`, `none` is the nil error);
* `github.com/pkg/errors`: `WithMessage` and the text of the wrapped error;
* `fabric-gateway/pkg/client`: a network that records the transaction calls
  made on its contracts and the requests that were issued to the peer, and a
  client that can fail before it issues anything;
* `google.golang.org/protobuf/proto`: `Unmarshal`, taken as a parameter of
  every wrapper (the wire format is external to this package).

A Go function returning `(T, error)` returns both components; the embedding
keeps both (`Ret`), together with the network after the call.  Every wrapper
returns `Option (Ret T)`, where `none` is a run-time panic: of
`network.GetContract` on a nil `network`, of an index or an assignment out of
range, of the dereference of a nil pointer.  The `network` argument is a
`*client.Network`, that is an `Option client.Network`.
-/

/-! ## Go values -/

/-- A Go `byte`. -/
abbrev Byte := UInt8

/-- A Go `string`: an immutable sequence of bytes, valid UTF-8 or not. -/
structure GoString where
  bytes : List Byte
deriving DecidableEq, Repr

/-- A Go string literal of the source text: its UTF-8 bytes. -/
def lit (s : String) : GoString := ⟨s.toUTF8.data.toList⟩

/-- Go `s + t` on strings. -/
def GoString.append (s t : GoString) : GoString := ⟨s.bytes ++ t.bytes⟩

instance : Append GoString := ⟨GoString.append⟩

/-- Go `len(s)` on a string: its number of bytes. -/
def GoString.len (s : GoString) : Nat := s.bytes.length

/-- A Go slice value: the nil slice, or a slice over some elements. -/
inductive Slice (α : Type) where
  | nil : Slice α
  | mk (elems : List α) : Slice α
deriving DecidableEq, Repr

/-- The elements of a slice, in order; the nil slice has none. -/
def Slice.toList {α : Type} : Slice α → List α
  | Slice.nil => []
  | Slice.mk elems => elems

/-- Go `len(s)` on a slice. -/
def Slice.len {α : Type} (s : Slice α) : Nat := s.toList.length

/-- Go `make([]T, n)`: a non-nil slice of `n` zero values. -/
def Slice.make {α : Type} (zero : α) (n : Nat) : Slice α := Slice.mk (List.replicate n zero)

/-- Go `s[i]`: `none` is the run-time panic for an index out of range. -/
def Slice.index {α : Type} (s : Slice α) (i : Nat) : Option α := s.toList[i]?

/-- Go `s[i] = v`: `none` is the run-time panic for an index out of range. -/
def Slice.assign {α : Type} (s : Slice α) (i : Nat) (v : α) : Option (Slice α) :=
  if i < s.len then some (Slice.mk (s.toList.set i v)) else none

/-- Go conversion `string(b)` of a byte slice: the same bytes, copied. -/
def GoString.ofBytes (b : Slice Byte) : GoString := ⟨b.toList⟩

/-- Go conversion `[]byte(s)` of a string: a non-nil slice of the same bytes. -/
def GoString.toBytes (s : GoString) : Slice Byte := Slice.mk s.bytes

/-- A Go `uint64`. -/
abbrev Uint64 := Fin 18446744073709551616

/-- Go `^x` on a `uint64`: bitwise complement, `2^64 - 1 - x`. -/
def Uint64.complement (x : Uint64) : Uint64 :=
  ⟨(18446744073709551615 - x.val) % 18446744073709551616, Nat.mod_lt _ (by decide)⟩

/-! ## `github.com/pkg/errors` -/

/-- A non-nil Go `error` value: an error produced by a library (known by its
text), or `&withMessage{cause, msg}` as built by `errors.WithMessage`. -/
inductive GoError where
  | leaf (text : GoString) : GoError
  | withMessage (cause : GoError) (msg : GoString) : GoError
deriving DecidableEq, Repr

/-- The method `Error()`: for `withMessage` it is `w.msg + ": " + w.cause.Error()`. -/
def GoError.Error : GoError → GoString
  | GoError.leaf text => text
  | GoError.withMessage cause msg => msg ++ lit ": " ++ cause.Error

/-- The method `Cause()` of `withMessage` (also its `Unwrap()`): the wrapped error. -/
def GoError.Cause : GoError → Option GoError
  | GoError.leaf _ => none
  | GoError.withMessage cause _ => some cause

/-- The function `errors.WithMessage(err, message)`: nil for a nil `err`, else
`err` annotated with `message`, which is stored as it is (it is
`errors.WithMessagef` that formats). -/
def errors.WithMessage (err : Option GoError) (message : GoString) : Option GoError :=
  match err with
  | none => none
  | some e => some (GoError.withMessage e message)


/-! ## `fabric-gateway/pkg/client` -/

/-- The two kinds of request a contract can issue: `EvaluateTransaction`
(a query, no ledger update) and `SubmitTransaction` (a ledger update). -/
inductive client.RequestKind where
  | evaluate : client.RequestKind
  | submit : client.RequestKind
deriving DecidableEq, Repr

/-- A request: the kind of call, the chaincode, the transaction name and the arguments. -/
structure client.Request where
  kind : client.RequestKind
  chaincodeName : GoString
  transactionName : GoString
  args : List GoString
deriving DecidableEq, Repr

/-- The struct `client.Network` with what surrounds it:
* `peer`: how the peer answers a request, given the requests issued to it so far;
* `fault`: the failure, if any, that stops the client before it issues a
  request (no signer, closed gateway connection);
* `log`: the transaction calls made on the contracts of the network, oldest first;
* `sent`: the requests that were issued to the peer, oldest first. -/
structure client.Network where
  peer : List client.Request → client.Request → Slice Byte × Option GoError
  fault : client.Request → Option GoError
  log : List client.Request
  sent : List client.Request

/-- A contract: a chaincode name on a network. -/
structure client.Contract where
  network : client.Network
  chaincodeName : GoString

/-- The body of the method `GetContract` on a non-nil receiver. -/
def client.Network.GetContract (network : client.Network) (chaincodeName : GoString) :
    client.Contract :=
  ⟨network, chaincodeName⟩

/-- The method call `network.GetContract(chaincodeName)` on a `*client.Network`:
`none` is the run-time panic of reading the fields of a nil receiver. -/
def client.GetContract (network : Option client.Network) (chaincodeName : GoString) :
    Option client.Contract :=
  match network with
  | none => none
  | some live => some (live.GetContract chaincodeName)

/-- What a call returns: the two Go return values and the network after the call. -/
structure Ret (α : Type) where
  val : α
  err : Option GoError
  network : client.Network

/-- The method `contract.EvaluateTransaction(name, args...)`: one evaluate call
is recorded; when the client is stopped by a fault the call fails with nothing
issued, otherwise the request is issued once and the peer's answer is returned. -/
def client.Contract.EvaluateTransaction (contract : client.Contract) (name : GoString)
    (args : List GoString) : Ret (Slice Byte) :=
  let request : client.Request :=
    ⟨client.RequestKind.evaluate, contract.chaincodeName, name, args⟩
  match contract.network.fault request with
  | some err =>
    ⟨Slice.nil, some err,
      ⟨contract.network.peer, contract.network.fault, contract.network.log ++ [request],
        contract.network.sent⟩⟩
  | none =>
    let answer := contract.network.peer contract.network.sent request
    ⟨answer.1, answer.2,
      ⟨contract.network.peer, contract.network.fault, contract.network.log ++ [request],
        contract.network.sent ++ [request]⟩⟩

/-! ## `google.golang.org/protobuf/proto` and the message types -/

/-- What `proto.Unmarshal(b, &m)` leaves behind when `m` was declared as the
zero message just before: the content of `m` after the call (possibly partly
filled when the call fails) and the returned error. -/
structure proto.Result (α : Type) where
  msg : α
  err : Option GoError

/-- The message `peer.ChannelInfo`, the field the wrapper reads. -/
structure peer.ChannelInfo where
  ChannelId : GoString
deriving DecidableEq, Repr

/-- The message `peer.ChannelQueryResponse`; a decoded repeated field holds no
nil element. -/
structure peer.ChannelQueryResponse where
  Channels : List peer.ChannelInfo
deriving DecidableEq, Repr

/-- The message `common.BlockchainInfo`, the fields the wrappers read. -/
structure common.BlockchainInfo where
  Height : Uint64
  CurrentBlockHash : Slice Byte
  PreviousBlockHash : Slice Byte
deriving DecidableEq, Repr

/-! ## Package `blockinfo` -/

namespace blockinfo

/-- The loop `for i, _ := range cqr.Channels { channels[i] = cqr.Channels[i].ChannelId }`
of `QueryChannels`, over the indices still to visit; `none` is a run-time panic. -/
def QueryChannels.loop (Channels : Slice peer.ChannelInfo) :
    List Nat → Slice GoString → Option (Slice GoString)
  | [], channels => some channels
  | i :: rest, channels =>
    match Channels.index i with
    | none => none
    | some c =>
      match channels.assign i c.ChannelId with
      | none => none
      | some channels1 => QueryChannels.loop Channels rest channels1

/-- The function `QueryChannels` (query.go, line 16). -/
def QueryChannels (Unmarshal : Slice Byte → proto.Result peer.ChannelQueryResponse)
    (network : Option client.Network) : Option (Ret (Slice GoString)) :=
  let chaincodeName := lit "cscc"
  match client.GetContract network chaincodeName with
  | none => none
  | some contract =>
    let evaluated := contract.EvaluateTransaction (lit "GetChannels") []
    match evaluated.err with
    | some err =>
      some ⟨Slice.nil, errors.WithMessage (some err) (lit "failed to query channels: %s"),
        evaluated.network⟩
    | none =>
      let decoded := Unmarshal evaluated.val
      match decoded.err with
      | some err =>
        some ⟨Slice.nil, errors.WithMessage (some err) (lit "failed to unmarshal: %s"),
          evaluated.network⟩
      | none =>
        let cqr := decoded.msg
        let channels := Slice.make (lit "") cqr.Channels.length
        match QueryChannels.loop (Slice.mk cqr.Channels) (List.range cqr.Channels.length)
            channels with
        | none => none
        | some channels1 => some ⟨channels1, none, evaluated.network⟩

/-- The function `QueryBlockInfo` (query.go, line 82). -/
def QueryBlockInfo (Unmarshal : Slice Byte → proto.Result common.BlockchainInfo)
    (network : Option client.Network) (channelName : GoString) :
    Option (Ret (Option common.BlockchainInfo)) :=
  let chaincodeName := lit "qscc"
  match client.GetContract network chaincodeName with
  | none => none
  | some contract =>
    let evaluated := contract.EvaluateTransaction (lit "GetChainInfo") [channelName]
    match evaluated.err with
    | some err =>
      some ⟨none, errors.WithMessage (some err) (lit "failed to get chainInfo: %s"),
        evaluated.network⟩
    | none =>
      let decoded := Unmarshal evaluated.val
      match decoded.err with
      | some err =>
        some ⟨none, errors.WithMessage (some err) (lit "failed to unmarshal: %s"),
          evaluated.network⟩
      | none => some ⟨some decoded.msg, none, evaluated.network⟩

/-- The function `QueryBlockHeight` (query.go, line 43); `none` is a panic: that of
`QueryBlockInfo`, or the dereference of a nil `BCI`. -/
def QueryBlockHeight (Unmarshal : Slice Byte → proto.Result common.BlockchainInfo)
    (network : Option client.Network) (channelName : GoString) : Option (Ret Uint64) :=
  match QueryBlockInfo Unmarshal network channelName with
  | none => none
  | some called =>
    match called.err with
    | some err => some ⟨Uint64.complement 0, some err, called.network⟩
    | none =>
      match called.val with
      | none => none
      | some BCI => some ⟨BCI.Height, none, called.network⟩

/-- The function `QueryCurrentBlockHash` (query.go, line 56); `none` is a panic: that of
`QueryBlockInfo`, or the dereference of a nil `BCI`. -/
def QueryCurrentBlockHash (Unmarshal : Slice Byte → proto.Result common.BlockchainInfo)
    (network : Option client.Network) (channelName : GoString) : Option (Ret (Slice Byte)) :=
  match QueryBlockInfo Unmarshal network channelName with
  | none => none
  | some called =>
    match called.err with
    | some err => some ⟨Slice.nil, some err, called.network⟩
    | none =>
      match called.val with
      | none => none
      | some BCI => some ⟨BCI.CurrentBlockHash, none, called.network⟩

/-- The function `QueryPreviousBlockHash` (query.go, line 69); `none` is a panic: that of
`QueryBlockInfo`, or the dereference of a nil `BCI`. -/
def QueryPreviousBlockHash (Unmarshal : Slice Byte → proto.Result common.BlockchainInfo)
    (network : Option client.Network) (channelName : GoString) : Option (Ret (Slice Byte)) :=
  match QueryBlockInfo Unmarshal network channelName with
  | none => none
  | some called =>
    match called.err with
    | some err => some ⟨Slice.nil, some err, called.network⟩
    | none =>
      match called.val with
      | none => none
      | some BCI => some ⟨BCI.PreviousBlockHash, none, called.network⟩

/-- The function `QueryBlockByIndex` (query.go, line 104); `Block` is the
message type `common.Block`. -/
def QueryBlockByIndex {Block : Type} (Unmarshal : Slice Byte → proto.Result Block)
    (network : Option client.Network) (channelName : GoString) (height : GoString) :
    Option (Ret (Option Block)) :=
  let chaincodeName := lit "qscc"
  match client.GetContract network chaincodeName with
  | none => none
  | some contract =>
    let evaluated := contract.EvaluateTransaction (lit "GetBlockByNumber") [channelName, height]
    match evaluated.err with
    | some err =>
      some ⟨none, errors.WithMessage (some err) (lit "failed to query block by index: %s"),
        evaluated.network⟩
    | none =>
      let decoded := Unmarshal evaluated.val
      match decoded.err with
      | some err =>
        some ⟨none, errors.WithMessage (some err) (lit "failed to unmarshal: %s"),
          evaluated.network⟩
      | none => some ⟨some decoded.msg, none, evaluated.network⟩

/-- The function `QueryBlockByHash` (query.go, line 126). -/
def QueryBlockByHash {Block : Type} (Unmarshal : Slice Byte → proto.Result Block)
    (network : Option client.Network) (channelName : GoString) (hash : Slice Byte) :
    Option (Ret (Option Block)) :=
  let chaincodeName := lit "qscc"
  match client.GetContract network chaincodeName with
  | none => none
  | some contract =>
    let evaluated := contract.EvaluateTransaction (lit "GetBlockByHash") 
      [channelName, GoString.ofBytes hash]
    match evaluated.err with
    | some err =>
      some ⟨none, errors.WithMessage (some err) (lit "failed to query block by hash: %s"),
        evaluated.network⟩
    | none =>
      let decoded := Unmarshal evaluated.val
      match decoded.err with
      | some err =>
        some ⟨none, errors.WithMessage (some err) (lit "failed to unmarshal: %s"),
          evaluated.network⟩
      | none => some ⟨some decoded.msg, none, evaluated.network⟩

/-- The function `QueryBlockByTxID` (query.go, line 147). -/
def QueryBlockByTxID {Block : Type} (Unmarshal : Slice Byte → proto.Result Block)
    (network : Option client.Network) (channelName : GoString) (TxID : Slice Byte) :
    Option (Ret (Option Block)) :=
  let chaincodeName := lit "qscc"
  match client.GetContract network chaincodeName with
  | none => none
  | some contract =>
    let evaluated := contract.EvaluateTransaction (lit "GetBlockByTxID") 
      [channelName, GoString.ofBytes TxID]
    match evaluated.err with
    | some err =>
      some ⟨none, errors.WithMessage (some err) (lit "failed to query block by TxID: %s"),
        evaluated.network⟩
    | none =>
      let decoded := Unmarshal evaluated.val
      match decoded.err with
      | some err =>
        some ⟨none, errors.WithMessage (some err) (lit "failed to unmarshal: %s"),
          evaluated.network⟩
      | none => some ⟨some decoded.msg, none, evaluated.network⟩

end blockinfo

/-! ## Sample environments

Small concrete networks and decoders on which the statements below are
evaluated. -/

namespace blockinfo.Sample

/-- A network whose peer answers the five queries of the system chaincodes
with the bytes `8, 7` and fails every other request. -/
def up : client.Network :=
  ⟨fun _ request =>
    if request.kind = client.RequestKind.evaluate ∧
        ((request.chaincodeName = lit "cscc" ∧ request.transactionName = lit "GetChannels") ∨
         (request.chaincodeName = lit "qscc" ∧
          request.transactionName ∈ [lit "GetChainInfo", lit "GetBlockByNumber",
            lit "GetBlockByHash", lit "GetBlockByTxID"]))
    then (Slice.mk [8, 7], none)
    else (Slice.nil, some (GoError.leaf (lit "unknown request"))),
   fun _ => none, [], []⟩

/-- The error of a peer that cannot be reached. -/
def refused : GoError := GoError.leaf (lit "connection refused")

/-- The error of a decoder that cannot parse its input. -/
def garbled : GoError := GoError.leaf (lit "proto: cannot parse invalid wire-format data")

/-- The error of a client whose gateway connection was closed. -/
def closing : GoError := GoError.leaf (lit "grpc: the client connection is closing")

/-- A network whose peer fails every request it receives. -/
def down : client.Network := ⟨fun _ _ => (Slice.nil, some refused), fun _ => none, [], []⟩

/-- A network whose client was closed: every call fails before a request is
issued (the peer itself would answer). -/
def closed : client.Network := ⟨up.peer, fun _ => some closing, [], []⟩

/-- A decoder of `peer.ChannelQueryResponse`: one channel per byte, named by it. -/
def decodeChannels (b : Slice Byte) : proto.Result peer.ChannelQueryResponse :=
  ⟨⟨b.toList.map (fun x => ⟨⟨[x]⟩⟩)⟩, none⟩

/-- A decoder of `peer.ChannelQueryResponse` that fails half-way through, with
one channel already stored in the message. -/
def rejectChannels (_ : Slice Byte) : proto.Result peer.ChannelQueryResponse :=
  ⟨⟨[⟨lit "half"⟩]⟩, some garbled⟩

/-- A decoder of `common.BlockchainInfo`: the greatest height and the input
bytes as current hash. -/
def decodeInfo (b : Slice Byte) : proto.Result common.BlockchainInfo :=
  ⟨⟨18446744073709551615, b, Slice.mk [3]⟩, none⟩

/-- A decoder of `common.BlockchainInfo` that fails with the height already stored. -/
def rejectInfo (_ : Slice Byte) : proto.Result common.BlockchainInfo :=
  ⟨⟨5, Slice.nil, Slice.nil⟩, some garbled⟩

/-- A decoder of a toy block message: the block is its bytes. -/
def decodeBlock (b : Slice Byte) : proto.Result (List Byte) := ⟨b.toList, none⟩

/-- A decoder of the toy block message that fails after the first byte. -/
def rejectBlock (b : Slice Byte) : proto.Result (List Byte) :=
  ⟨b.toList.take 1, some garbled⟩

end blockinfo.Sample

/-! ## Auxiliary facts -/

namespace blockinfo

/-- Writing index `i` and then keeping `i + 1` elements is keeping `i`
elements and appending the written value. -/
theorem take_succ_set {α : Type} (out : List α) (i : Nat) (v : α) (h : i < out.length) :
    (out.set i v).take (i + 1) = out.take i ++ [v] := by
  induction out generalizing i with
  | nil => simp at h
  | cons a rest ih =>
    cases i with
    | zero => simp
    | succ j => simpa using ih j (by simpa using h)

/-- The loop of `QueryChannels`, started at index `i` with `k` indices left,
never panics and overwrites the elements from `i` on with the channel ids. -/
theorem loop_range' (cs : List peer.ChannelInfo) :
    ∀ (k i : Nat) (out : List GoString), i + k = cs.length → out.length = cs.length →
      QueryChannels.loop (Slice.mk cs) (List.range' i k) (Slice.mk out)
        = some (Slice.mk (out.take i ++ (cs.drop i).map peer.ChannelInfo.ChannelId)) := by
  intro k
  induction k with
  | zero =>
    intro i out hi hlen
    have hi2 : i = cs.length := by omega
    subst hi2
    simp [QueryChannels.loop, ← hlen]
  | succ k ih =>
    intro i out hi hlen
    have hlt : i < cs.length := by omega
    have hlt2 : i < out.length := by omega
    rw [List.range'_succ]
    simp only [QueryChannels.loop, Slice.index, Slice.toList, List.getElem?_eq_getElem hlt,
      Slice.assign, Slice.len, hlt2, if_true]
    rw [ih (i + 1) _ (by omega) (by simp [hlen]), take_succ_set out i _ hlt2,
      List.drop_eq_getElem_cons hlt]
    simp only [List.map_cons, List.append_assoc, List.singleton_append]

/-- The whole loop of `QueryChannels` on a fresh slice: no panic, and the
result is the list of channel ids in order. -/
theorem loop_all (cs : List peer.ChannelInfo) :
    QueryChannels.loop (Slice.mk cs) (List.range cs.length) (Slice.make (lit "") cs.length)
      = some (Slice.mk (cs.map peer.ChannelInfo.ChannelId)) := by
  rw [List.range_eq_range', Slice.make, loop_range' cs cs.length 0 _ (by simp) (by simp)]
  simp

/-- What one call of `EvaluateTransaction` leaves in the network: the call is
recorded; the request is issued once when no fault stops the client, and
otherwise nothing is issued and the call fails. -/
theorem EvaluateTransaction_trace (contract : client.Contract) (name : GoString)
    (args : List GoString) :
    (contract.EvaluateTransaction name args).network.log
      = contract.network.log ++
          [⟨client.RequestKind.evaluate, contract.chaincodeName, name, args⟩] ∧
    (contract.network.fault ⟨client.RequestKind.evaluate, contract.chaincodeName, name, args⟩
        = none →
      (contract.EvaluateTransaction name args).network.sent
        = contract.network.sent ++
            [⟨client.RequestKind.evaluate, contract.chaincodeName, name, args⟩]) ∧
    (contract.network.fault ⟨client.RequestKind.evaluate, contract.chaincodeName, name, args⟩
        ≠ none →
      (contract.EvaluateTransaction name args).network.sent = contract.network.sent ∧
      (contract.EvaluateTransaction name args).err ≠ none) := by
  cases h : contract.network.fault
      ⟨client.RequestKind.evaluate, contract.chaincodeName, name, args⟩ with
  | none => simp [client.Contract.EvaluateTransaction, h]
  | some e => simp [client.Contract.EvaluateTransaction, h]

/-- The three outcomes of `QueryChannels` on a non-nil network, by the outcome of
its evaluate call and of the decoder. -/
theorem QueryChannels_cases (Unmarshal : Slice Byte → proto.Result peer.ChannelQueryResponse)
    (network : client.Network) :
    (∀ e, ((network.GetContract (lit "cscc")).EvaluateTransaction
        (lit "GetChannels") []).err = some e →
      QueryChannels Unmarshal (some network)
        = some ⟨Slice.nil, some (GoError.withMessage e (lit "failed to query channels: %s")),
            ((network.GetContract (lit "cscc")).EvaluateTransaction
        (lit "GetChannels") []).network⟩) ∧
    (∀ d, ((network.GetContract (lit "cscc")).EvaluateTransaction
        (lit "GetChannels") []).err = none →
      (Unmarshal ((network.GetContract (lit "cscc")).EvaluateTransaction
        (lit "GetChannels") []).val).err = some d →
      QueryChannels Unmarshal (some network)
        = some ⟨Slice.nil, some (GoError.withMessage d (lit "failed to unmarshal: %s")),
            ((network.GetContract (lit "cscc")).EvaluateTransaction
        (lit "GetChannels") []).network⟩) ∧
    (((network.GetContract (lit "cscc")).EvaluateTransaction
        (lit "GetChannels") []).err = none →
      (Unmarshal ((network.GetContract (lit "cscc")).EvaluateTransaction
        (lit "GetChannels") []).val).err = none →
      QueryChannels Unmarshal (some network)
        = some ⟨Slice.mk ((Unmarshal ((network.GetContract (lit "cscc")).EvaluateTransaction
        (lit "GetChannels") []).val).msg.Channels.map
            peer.ChannelInfo.ChannelId), none,
            ((network.GetContract (lit "cscc")).EvaluateTransaction
        (lit "GetChannels") []).network⟩) := by
  refine ⟨?_, ?_, ?_⟩
  · intro e h
    simp only [QueryChannels, client.GetContract, h, errors.WithMessage]
  · intro d h hd
    simp only [QueryChannels, client.GetContract, h, hd, errors.WithMessage]
  · intro h hd
    simp only [QueryChannels, client.GetContract, h, hd, loop_all]

/-- The trace of `QueryChannels` on a non-nil network: it returns, the network after it
is the network after its evaluate call, and it fails when that call fails. -/
theorem QueryChannels_trace (Unmarshal : Slice Byte → proto.Result peer.ChannelQueryResponse)
    (network : client.Network) :
    ∃ o, QueryChannels Unmarshal (some network) = some o ∧
      o.network = ((network.GetContract (lit "cscc")).EvaluateTransaction
        (lit "GetChannels") []).network ∧
      (((network.GetContract (lit "cscc")).EvaluateTransaction
        (lit "GetChannels") []).err ≠ none → o.err ≠ none) := by
  obtain ⟨h1, h2, h3⟩ := QueryChannels_cases Unmarshal network
  cases he : ((network.GetContract (lit "cscc")).EvaluateTransaction
        (lit "GetChannels") []).err with
  | some e => exact ⟨_, h1 e he, rfl, by simp⟩
  | none =>
    cases hd : (Unmarshal ((network.GetContract (lit "cscc")).EvaluateTransaction
        (lit "GetChannels") []).val).err with
    | some d => exact ⟨_, h2 d he hd, rfl, by simp⟩
    | none => exact ⟨_, h3 he hd, rfl, by simp⟩

/-- The three outcomes of `QueryBlockInfo` on a non-nil network. -/
theorem QueryBlockInfo_cases (Unmarshal : Slice Byte → proto.Result common.BlockchainInfo)
    (network : client.Network) (channelName : GoString) :
    (∀ e, ((network.GetContract (lit "qscc")).EvaluateTransaction
        (lit "GetChainInfo") [channelName]).err = some e →
      QueryBlockInfo Unmarshal (some network) channelName
        = some ⟨none, some (GoError.withMessage e (lit "failed to get chainInfo: %s")),
            ((network.GetContract (lit "qscc")).EvaluateTransaction
        (lit "GetChainInfo") [channelName]).network⟩) ∧
    (∀ d, ((network.GetContract (lit "qscc")).EvaluateTransaction
        (lit "GetChainInfo") [channelName]).err = none →
      (Unmarshal ((network.GetContract (lit "qscc")).EvaluateTransaction
        (lit "GetChainInfo") [channelName]).val).err = some d →
      QueryBlockInfo Unmarshal (some network) channelName
        = some ⟨none, some (GoError.withMessage d (lit "failed to unmarshal: %s")),
            ((network.GetContract (lit "qscc")).EvaluateTransaction
        (lit "GetChainInfo") [channelName]).network⟩) ∧
    (((network.GetContract (lit "qscc")).EvaluateTransaction
        (lit "GetChainInfo") [channelName]).err = none →
      (Unmarshal ((network.GetContract (lit "qscc")).EvaluateTransaction
        (lit "GetChainInfo") [channelName]).val).err = none →
      QueryBlockInfo Unmarshal (some network) channelName
        = some ⟨some (Unmarshal ((network.GetContract (lit "qscc")).EvaluateTransaction
        (lit "GetChainInfo") [channelName]).val).msg, none,
            ((network.GetContract (lit "qscc")).EvaluateTransaction
        (lit "GetChainInfo") [channelName]).network⟩) := by
  refine ⟨?_, ?_, ?_⟩
  · intro e h
    simp only [QueryBlockInfo, client.GetContract, h, errors.WithMessage]
  · intro d h hd
    simp only [QueryBlockInfo, client.GetContract, h, hd, errors.WithMessage]
  · intro h hd
    simp only [QueryBlockInfo, client.GetContract, h, hd, loop_all]

/-- The trace of `QueryBlockInfo` on a non-nil network: it returns, the network after it
is the network after its evaluate call, and it fails when that call fails. -/
theorem QueryBlockInfo_trace (Unmarshal : Slice Byte → proto.Result common.BlockchainInfo)
    (network : client.Network) (channelName : GoString) :
    ∃ o, QueryBlockInfo Unmarshal (some network) channelName = some o ∧
      o.network = ((network.GetContract (lit "qscc")).EvaluateTransaction
        (lit "GetChainInfo") [channelName]).network ∧
      (((network.GetContract (lit "qscc")).EvaluateTransaction
        (lit "GetChainInfo") [channelName]).err ≠ none → o.err ≠ none) := by
  obtain ⟨h1, h2, h3⟩ := QueryBlockInfo_cases Unmarshal network channelName
  cases he : ((network.GetContract (lit "qscc")).EvaluateTransaction
        (lit "GetChainInfo") [channelName]).err with
  | some e => exact ⟨_, h1 e he, rfl, by simp⟩
  | none =>
    cases hd : (Unmarshal ((network.GetContract (lit "qscc")).EvaluateTransaction
        (lit "GetChainInfo") [channelName]).val).err with
    | some d => exact ⟨_, h2 d he hd, rfl, by simp⟩
    | none => exact ⟨_, h3 he hd, rfl, by simp⟩

/-- The three outcomes of `QueryBlockByIndex` on a non-nil network. -/
theorem QueryBlockByIndex_cases {Block : Type} (Unmarshal : Slice Byte → proto.Result Block)
    (network : client.Network) (channelName : GoString) (height : GoString) :
    (∀ e, ((network.GetContract (lit "qscc")).EvaluateTransaction
        (lit "GetBlockByNumber") [channelName, height]).err = some e →
      QueryBlockByIndex Unmarshal (some network) channelName height
        = some ⟨none, some (GoError.withMessage e (lit "failed to query block by index: %s")),
            ((network.GetContract (lit "qscc")).EvaluateTransaction
        (lit "GetBlockByNumber") [channelName, height]).network⟩) ∧
    (∀ d, ((network.GetContract (lit "qscc")).EvaluateTransaction
        (lit "GetBlockByNumber") [channelName, height]).err = none →
      (Unmarshal ((network.GetContract (lit "qscc")).EvaluateTransaction
        (lit "GetBlockByNumber") [channelName, height]).val).err = some d →
      QueryBlockByIndex Unmarshal (some network) channelName height
        = some ⟨none, some (GoError.withMessage d (lit "failed to unmarshal: %s")),
            ((network.GetContract (lit "qscc")).EvaluateTransaction
        (lit "GetBlockByNumber") [channelName, height]).network⟩) ∧
    (((network.GetContract (lit "qscc")).EvaluateTransaction
        (lit "GetBlockByNumber") [channelName, height]).err = none →
      (Unmarshal ((network.GetContract (lit "qscc")).EvaluateTransaction
        (lit "GetBlockByNumber") [channelName, height]).val).err = none →
      QueryBlockByIndex Unmarshal (some network) channelName height
        = some ⟨some (Unmarshal ((network.GetContract (lit "qscc")).EvaluateTransaction
        (lit "GetBlockByNumber") [channelName, height]).val).msg, none,
            ((network.GetContract (lit "qscc")).EvaluateTransaction
        (lit "GetBlockByNumber") [channelName, height]).network⟩) := by
  refine ⟨?_, ?_, ?_⟩
  · intro e h
    simp only [QueryBlockByIndex, client.GetContract, h, errors.WithMessage]
  · intro d h hd
    simp only [QueryBlockByIndex, client.GetContract, h, hd, errors.WithMessage]
  · intro h hd
    simp only [QueryBlockByIndex, client.GetContract, h, hd, loop_all]

/-- The trace of `QueryBlockByIndex` on a non-nil network: it returns, the network after it
is the network after its evaluate call, and it fails when that call fails. -/
theorem QueryBlockByIndex_trace {Block : Type} (Unmarshal : Slice Byte → proto.Result Block)
    (network : client.Network) (channelName : GoString) (height : GoString) :
    ∃ o, QueryBlockByIndex Unmarshal (some network) channelName height = some o ∧
      o.network = ((network.GetContract (lit "qscc")).EvaluateTransaction
        (lit "GetBlockByNumber") [channelName, height]).network ∧
      (((network.GetContract (lit "qscc")).EvaluateTransaction
        (lit "GetBlockByNumber") [channelName, height]).err ≠ none → o.err ≠ none) := by
  obtain ⟨h1, h2, h3⟩ := QueryBlockByIndex_cases Unmarshal network channelName height
  cases he : ((network.GetContract (lit "qscc")).EvaluateTransaction
        (lit "GetBlockByNumber") [channelName, height]).err with
  | some e => exact ⟨_, h1 e he, rfl, by simp⟩
  | none =>
    cases hd : (Unmarshal ((network.GetContract (lit "qscc")).EvaluateTransaction
        (lit "GetBlockByNumber") [channelName, height]).val).err with
    | some d => exact ⟨_, h2 d he hd, rfl, by simp⟩
    | none => exact ⟨_, h3 he hd, rfl, by simp⟩

/-- The three outcomes of `QueryBlockByHash` on a non-nil network. -/
theorem QueryBlockByHash_cases {Block : Type} (Unmarshal : Slice Byte → proto.Result Block)
    (network : client.Network) (channelName : GoString) (hash : Slice Byte) :
    (∀ e, ((network.GetContract (lit "qscc")).EvaluateTransaction
        (lit "GetBlockByHash") [channelName, GoString.ofBytes hash]).err = some e →
      QueryBlockByHash Unmarshal (some network) channelName hash
        = some ⟨none, some (GoError.withMessage e (lit "failed to query block by hash: %s")),
            ((network.GetContract (lit "qscc")).EvaluateTransaction
        (lit "GetBlockByHash") [channelName, GoString.ofBytes hash]).network⟩) ∧
    (∀ d, ((network.GetContract (lit "qscc")).EvaluateTransaction
        (lit "GetBlockByHash") [channelName, GoString.ofBytes hash]).err = none →
      (Unmarshal ((network.GetContract (lit "qscc")).EvaluateTransaction
        (lit "GetBlockByHash") [channelName, GoString.ofBytes hash]).val).err = some d →
      QueryBlockByHash Unmarshal (some network) channelName hash
        = some ⟨none, some (GoError.withMessage d (lit "failed to unmarshal: %s")),
            ((network.GetContract (lit "qscc")).EvaluateTransaction
        (lit "GetBlockByHash") [channelName, GoString.ofBytes hash]).network⟩) ∧
    (((network.GetContract (lit "qscc")).EvaluateTransaction
        (lit "GetBlockByHash") [channelName, GoString.ofBytes hash]).err = none →
      (Unmarshal ((network.GetContract (lit "qscc")).EvaluateTransaction
        (lit "GetBlockByHash") [channelName, GoString.ofBytes hash]).val).err = none →
      QueryBlockByHash Unmarshal (some network) channelName hash
        = some ⟨some (Unmarshal ((network.GetContract (lit "qscc")).EvaluateTransaction
        (lit "GetBlockByHash") [channelName, GoString.ofBytes hash]).val).msg, none,
            ((network.GetContract (lit "qscc")).EvaluateTransaction
        (lit "GetBlockByHash") [channelName, GoString.ofBytes hash]).network⟩) := by
  refine ⟨?_, ?_, ?_⟩
  · intro e h
    simp only [QueryBlockByHash, client.GetContract, h, errors.WithMessage]
  · intro d h hd
    simp only [QueryBlockByHash, client.GetContract, h, hd, errors.WithMessage]
  · intro h hd
    simp only [QueryBlockByHash, client.GetContract, h, hd, loop_all]

/-- The trace of `QueryBlockByHash` on a non-nil network: it returns, the network after it
is the network after its evaluate call, and it fails when that call fails. -/
theorem QueryBlockByHash_trace {Block : Type} (Unmarshal : Slice Byte → proto.Result Block)
    (network : client.Network) (channelName : GoString) (hash : Slice Byte) :
    ∃ o, QueryBlockByHash Unmarshal (some network) channelName hash = some o ∧
      o.network = ((network.GetContract (lit "qscc")).EvaluateTransaction
        (lit "GetBlockByHash") [channelName, GoString.ofBytes hash]).network ∧
      (((network.GetContract (lit "qscc")).EvaluateTransaction
        (lit "GetBlockByHash") [channelName, GoString.ofBytes hash]).err ≠ none → o.err ≠ none) := by
  obtain ⟨h1, h2, h3⟩ := QueryBlockByHash_cases Unmarshal network channelName hash
  cases he : ((network.GetContract (lit "qscc")).EvaluateTransaction
        (lit "GetBlockByHash") [channelName, GoString.ofBytes hash]).err with
  | some e => exact ⟨_, h1 e he, rfl, by simp⟩
  | none =>
    cases hd : (Unmarshal ((network.GetContract (lit "qscc")).EvaluateTransaction
        (lit "GetBlockByHash") [channelName, GoString.ofBytes hash]).val).err with
    | some d => exact ⟨_, h2 d he hd, rfl, by simp⟩
    | none => exact ⟨_, h3 he hd, rfl, by simp⟩

/-- The three outcomes of `QueryBlockByTxID` on a non-nil network. -/
theorem QueryBlockByTxID_cases {Block : Type} (Unmarshal : Slice Byte → proto.Result Block)
    (network : client.Network) (channelName : GoString) (TxID : Slice Byte) :
    (∀ e, ((network.GetContract (lit "qscc")).EvaluateTransaction
        (lit "GetBlockByTxID") [channelName, GoString.ofBytes TxID]).err = some e →
      QueryBlockByTxID Unmarshal (some network) channelName TxID
        = some ⟨none, some (GoError.withMessage e (lit "failed to query block by TxID: %s")),
            ((network.GetContract (lit "qscc")).EvaluateTransaction
        (lit "GetBlockByTxID") [channelName, GoString.ofBytes TxID]).network⟩) ∧
    (∀ d, ((network.GetContract (lit "qscc")).EvaluateTransaction
        (lit "GetBlockByTxID") [channelName, GoString.ofBytes TxID]).err = none →
      (Unmarshal ((network.GetContract (lit "qscc")).EvaluateTransaction
        (lit "GetBlockByTxID") [channelName, GoString.ofBytes TxID]).val).err = some d →
      QueryBlockByTxID Unmarshal (some network) channelName TxID
        = some ⟨none, some (GoError.withMessage d (lit "failed to unmarshal: %s")),
            ((network.GetContract (lit "qscc")).EvaluateTransaction
        (lit "GetBlockByTxID") [channelName, GoString.ofBytes TxID]).network⟩) ∧
    (((network.GetContract (lit "qscc")).EvaluateTransaction
        (lit "GetBlockByTxID") [channelName, GoString.ofBytes TxID]).err = none →
      (Unmarshal ((network.GetContract (lit "qscc")).EvaluateTransaction
        (lit "GetBlockByTxID") [channelName, GoString.ofBytes TxID]).val).err = none →
      QueryBlockByTxID Unmarshal (some network) channelName TxID
        = some ⟨some (Unmarshal ((network.GetContract (lit "qscc")).EvaluateTransaction
        (lit "GetBlockByTxID") [channelName, GoString.ofBytes TxID]).val).msg, none,
            ((network.GetContract (lit "qscc")).EvaluateTransaction
        (lit "GetBlockByTxID") [channelName, GoString.ofBytes TxID]).network⟩) := by
  refine ⟨?_, ?_, ?_⟩
  · intro e h
    simp only [QueryBlockByTxID, client.GetContract, h, errors.WithMessage]
  · intro d h hd
    simp only [QueryBlockByTxID, client.GetContract, h, hd, errors.WithMessage]
  · intro h hd
    simp only [QueryBlockByTxID, client.GetContract, h, hd, loop_all]

/-- The trace of `QueryBlockByTxID` on a non-nil network: it returns, the network after it
is the network after its evaluate call, and it fails when that call fails. -/
theorem QueryBlockByTxID_trace {Block : Type} (Unmarshal : Slice Byte → proto.Result Block)
    (network : client.Network) (channelName : GoString) (TxID : Slice Byte) :
    ∃ o, QueryBlockByTxID Unmarshal (some network) channelName TxID = some o ∧
      o.network = ((network.GetContract (lit "qscc")).EvaluateTransaction
        (lit "GetBlockByTxID") [channelName, GoString.ofBytes TxID]).network ∧
      (((network.GetContract (lit "qscc")).EvaluateTransaction
        (lit "GetBlockByTxID") [channelName, GoString.ofBytes TxID]).err ≠ none → o.err ≠ none) := by
  obtain ⟨h1, h2, h3⟩ := QueryBlockByTxID_cases Unmarshal network channelName TxID
  cases he : ((network.GetContract (lit "qscc")).EvaluateTransaction
        (lit "GetBlockByTxID") [channelName, GoString.ofBytes TxID]).err with
  | some e => exact ⟨_, h1 e he, rfl, by simp⟩
  | none =>
    cases hd : (Unmarshal ((network.GetContract (lit "qscc")).EvaluateTransaction
        (lit "GetBlockByTxID") [channelName, GoString.ofBytes TxID]).val).err with
    | some d => exact ⟨_, h2 d he hd, rfl, by simp⟩
    | none => exact ⟨_, h3 he hd, rfl, by simp⟩

/-- When `QueryBlockInfo` returns a nil error it returns a non-nil pointer. -/
theorem QueryBlockInfo_val_isSome (Unmarshal : Slice Byte → proto.Result common.BlockchainInfo)
    (network : Option client.Network) (channelName : GoString)
    (o : Ret (Option common.BlockchainInfo))
    (ho : QueryBlockInfo Unmarshal network channelName = some o) (he : o.err = none) :
    ∃ r, o.val = some r := by
  cases network with
  | none => simp [QueryBlockInfo, client.GetContract] at ho
  | some live =>
    obtain ⟨h1, h2, h3⟩ := QueryBlockInfo_cases Unmarshal live channelName
    cases hev : ((live.GetContract (lit "qscc")).EvaluateTransaction
        (lit "GetChainInfo") [channelName]).err with
    | some e =>
      rw [h1 e hev] at ho
      cases ho
      cases he
    | none =>
      cases hd : (Unmarshal ((live.GetContract (lit "qscc")).EvaluateTransaction
          (lit "GetChainInfo") [channelName]).val).err with
      | some d =>
        rw [h2 d hev hd] at ho
        cases ho
        cases he
      | none =>
        rw [h3 hev hd] at ho
        cases ho
        exact ⟨_, rfl⟩

/-- The outcomes of `QueryBlockHeight`, by the outcome of `QueryBlockInfo`. -/
theorem QueryBlockHeight_cases (Unmarshal : Slice Byte → proto.Result common.BlockchainInfo)
    (network : Option client.Network) (channelName : GoString)
    (called : Ret (Option common.BlockchainInfo))
    (hc : QueryBlockInfo Unmarshal network channelName = some called) :
    (∀ e, called.err = some e →
      QueryBlockHeight Unmarshal network channelName
          = some ⟨Uint64.complement 0, some e, called.network⟩) ∧
    (∀ r, called.err = none → called.val = some r →
      QueryBlockHeight Unmarshal network channelName = some ⟨r.Height, none, called.network⟩) := by
  refine ⟨?_, ?_⟩
  · intro e h
    simp only [QueryBlockHeight, hc, h]
  · intro r h hv
    simp only [QueryBlockHeight, hc, h, hv]

/-- The trace of `QueryBlockHeight` on a non-nil network: it returns, the network after it
is the network after the evaluate call of `QueryBlockInfo`, and it fails when
that call fails. -/
theorem QueryBlockHeight_trace (Unmarshal : Slice Byte → proto.Result common.BlockchainInfo)
    (network : client.Network) (channelName : GoString) :
    ∃ o, QueryBlockHeight Unmarshal (some network) channelName = some o ∧
      o.network = ((network.GetContract (lit "qscc")).EvaluateTransaction
        (lit "GetChainInfo") [channelName]).network ∧
      (((network.GetContract (lit "qscc")).EvaluateTransaction
        (lit "GetChainInfo") [channelName]).err ≠ none → o.err ≠ none) := by
  obtain ⟨i, hi, hn, hf⟩ := QueryBlockInfo_trace Unmarshal network channelName
  obtain ⟨g1, g2⟩ := QueryBlockHeight_cases Unmarshal (some network) channelName i hi
  cases he : i.err with
  | some e => exact ⟨_, g1 e he, hn, by simp⟩
  | none =>
    obtain ⟨r, hr⟩ := QueryBlockInfo_val_isSome Unmarshal (some network) channelName i hi he
    refine ⟨_, g2 r he hr, hn, ?_⟩
    intro hne
    exact absurd he (hf hne)

/-- The outcomes of `QueryCurrentBlockHash`, by the outcome of `QueryBlockInfo`. -/
theorem QueryCurrentBlockHash_cases (Unmarshal : Slice Byte → proto.Result common.BlockchainInfo)
    (network : Option client.Network) (channelName : GoString)
    (called : Ret (Option common.BlockchainInfo))
    (hc : QueryBlockInfo Unmarshal network channelName = some called) :
    (∀ e, called.err = some e →
      QueryCurrentBlockHash Unmarshal network channelName
          = some ⟨Slice.nil, some e, called.network⟩) ∧
    (∀ r, called.err = none → called.val = some r →
      QueryCurrentBlockHash Unmarshal network channelName
          = some ⟨r.CurrentBlockHash, none, called.network⟩) := by
  refine ⟨?_, ?_⟩
  · intro e h
    simp only [QueryCurrentBlockHash, hc, h]
  · intro r h hv
    simp only [QueryCurrentBlockHash, hc, h, hv]

/-- The trace of `QueryCurrentBlockHash` on a non-nil network: it returns, the network after it
is the network after the evaluate call of `QueryBlockInfo`, and it fails when
that call fails. -/
theorem QueryCurrentBlockHash_trace (Unmarshal : Slice Byte → proto.Result common.BlockchainInfo)
    (network : client.Network) (channelName : GoString) :
    ∃ o, QueryCurrentBlockHash Unmarshal (some network) channelName = some o ∧
      o.network = ((network.GetContract (lit "qscc")).EvaluateTransaction
        (lit "GetChainInfo") [channelName]).network ∧
      (((network.GetContract (lit "qscc")).EvaluateTransaction
        (lit "GetChainInfo") [channelName]).err ≠ none → o.err ≠ none) := by
  obtain ⟨i, hi, hn, hf⟩ := QueryBlockInfo_trace Unmarshal network channelName
  obtain ⟨g1, g2⟩ := QueryCurrentBlockHash_cases Unmarshal (some network) channelName i hi
  cases he : i.err with
  | some e => exact ⟨_, g1 e he, hn, by simp⟩
  | none =>
    obtain ⟨r, hr⟩ := QueryBlockInfo_val_isSome Unmarshal (some network) channelName i hi he
    refine ⟨_, g2 r he hr, hn, ?_⟩
    intro hne
    exact absurd he (hf hne)

/-- The outcomes of `QueryPreviousBlockHash`, by the outcome of `QueryBlockInfo`. -/
theorem QueryPreviousBlockHash_cases (Unmarshal : Slice Byte → proto.Result common.BlockchainInfo)
    (network : Option client.Network) (channelName : GoString)
    (called : Ret (Option common.BlockchainInfo))
    (hc : QueryBlockInfo Unmarshal network channelName = some called) :
    (∀ e, called.err = some e →
      QueryPreviousBlockHash Unmarshal network channelName
          = some ⟨Slice.nil, some e, called.network⟩) ∧
    (∀ r, called.err = none → called.val = some r →
      QueryPreviousBlockHash Unmarshal network channelName
          = some ⟨r.PreviousBlockHash, none, called.network⟩) := by
  refine ⟨?_, ?_⟩
  · intro e h
    simp only [QueryPreviousBlockHash, hc, h]
  · intro r h hv
    simp only [QueryPreviousBlockHash, hc, h, hv]

/-- The trace of `QueryPreviousBlockHash` on a non-nil network: it returns, the network after it
is the network after the evaluate call of `QueryBlockInfo`, and it fails when
that call fails. -/
theorem QueryPreviousBlockHash_trace (Unmarshal : Slice Byte → proto.Result common.BlockchainInfo)
    (network : client.Network) (channelName : GoString) :
    ∃ o, QueryPreviousBlockHash Unmarshal (some network) channelName = some o ∧
      o.network = ((network.GetContract (lit "qscc")).EvaluateTransaction
        (lit "GetChainInfo") [channelName]).network ∧
      (((network.GetContract (lit "qscc")).EvaluateTransaction
        (lit "GetChainInfo") [channelName]).err ≠ none → o.err ≠ none) := by
  obtain ⟨i, hi, hn, hf⟩ := QueryBlockInfo_trace Unmarshal network channelName
  obtain ⟨g1, g2⟩ := QueryPreviousBlockHash_cases Unmarshal (some network) channelName i hi
  cases he : i.err with
  | some e => exact ⟨_, g1 e he, hn, by simp⟩
  | none =>
    obtain ⟨r, hr⟩ := QueryBlockInfo_val_isSome Unmarshal (some network) channelName i hi he
    refine ⟨_, g2 r he hr, hn, ?_⟩
    intro hne
    exact absurd he (hf hne)

end blockinfo

/-! ## The claims -/

namespace blockinfo

/-- C1: when the evaluation of "GetChannels" on "cscc" succeeds and its bytes
decode to a response `cqr`, `QueryChannels` returns (it does not panic) a nil
error and the slice of the channel ids of `cqr.Channels` in order: it has the
length of `cqr.Channels`, its `i`-th element is the `ChannelId` of the `i`-th
channel for every index `i`, and it is empty (not nil) when there is no channel. -/
theorem QueryChannels_returns_channel_ids
    (Unmarshal : Slice Byte → proto.Result peer.ChannelQueryResponse)
    (network : client.Network) (cqr : peer.ChannelQueryResponse)
    (hEval : ((network.GetContract (lit "cscc")).EvaluateTransaction
        (lit "GetChannels") []).err = none)
    (hErr : (Unmarshal ((network.GetContract (lit "cscc")).EvaluateTransaction
        (lit "GetChannels") []).val).err = none)
    (hMsg : (Unmarshal ((network.GetContract (lit "cscc")).EvaluateTransaction
        (lit "GetChannels") []).val).msg = cqr) :
    ∃ r, QueryChannels Unmarshal (some network) = some r ∧ r.err = none ∧
      r.val = Slice.mk (cqr.Channels.map peer.ChannelInfo.ChannelId) ∧
      r.val.len = cqr.Channels.length ∧
      (∀ (i : Nat) (h : i < cqr.Channels.length),
        r.val.index i = some (cqr.Channels[i]).ChannelId) ∧
      (cqr.Channels = [] → r.val = Slice.mk []) := by
  refine ⟨_, (QueryChannels_cases Unmarshal network).2.2 hEval hErr, rfl, by rw [hMsg],
    ?_, ?_, ?_⟩
  · simp [Slice.len, Slice.toList, hMsg]
  · intro i h
    simp [Slice.index, Slice.toList, hMsg, List.getElem?_eq_getElem h]
  · intro h
    simp [hMsg, h]

/-- C1 on the sample network: the two bytes of the answer decode to two
channels, and the two channel ids come back in order. -/
theorem QueryChannels_returns_channel_ids_witness :
    ((Sample.up.GetContract (lit "cscc")).EvaluateTransaction (lit "GetChannels") []).err = none ∧
    (Sample.decodeChannels ((Sample.up.GetContract (lit "cscc")).EvaluateTransaction
      (lit "GetChannels") []).val).err = none ∧
    (Sample.decodeChannels ((Sample.up.GetContract (lit "cscc")).EvaluateTransaction
      (lit "GetChannels") []).val).msg = ⟨[⟨⟨[8]⟩⟩, ⟨⟨[7]⟩⟩]⟩ ∧
    ∃ r, QueryChannels Sample.decodeChannels (some Sample.up) = some r ∧ r.err = none ∧
      r.val = Slice.mk [⟨[8]⟩, ⟨[7]⟩] ∧
      r.val.len = 2 ∧
      (∀ (i : Nat) (h : i < 2),
        r.val.index i
          = some ([(⟨⟨[8]⟩⟩ : peer.ChannelInfo), ⟨⟨[7]⟩⟩][i]).ChannelId) ∧
      (([⟨⟨[8]⟩⟩, ⟨⟨[7]⟩⟩] : List peer.ChannelInfo) = [] → r.val = Slice.mk []) :=
  ⟨rfl, rfl, rfl, QueryChannels_returns_channel_ids Sample.decodeChannels Sample.up
    ⟨[⟨⟨[8]⟩⟩, ⟨⟨[7]⟩⟩]⟩ rfl rfl rfl⟩

/-- C2: when `QueryBlockInfo` succeeds with record `r`, on the same network and
channel name `QueryBlockHeight` returns `(r.Height, nil)`,
`QueryCurrentBlockHash` returns `(r.CurrentBlockHash, nil)` and
`QueryPreviousBlockHash` returns `(r.PreviousBlockHash, nil)`; the height is
the decoded `uint64` itself, whatever its value. -/
theorem narrowed_queries_return_decoded_fields
    (Unmarshal : Slice Byte → proto.Result common.BlockchainInfo)
    (network : Option client.Network) (channelName : GoString) (r : common.BlockchainInfo)
    (hErr : (QueryBlockInfo Unmarshal network channelName).map (fun o => o.err) = some none)
    (hVal : (QueryBlockInfo Unmarshal network channelName).map (fun o => o.val)
      = some (some r)) :
    (QueryBlockHeight Unmarshal network channelName).map (fun o => (o.val, o.err))
      = some (r.Height, none) ∧
    (QueryCurrentBlockHash Unmarshal network channelName).map (fun o => (o.val, o.err))
      = some (r.CurrentBlockHash, none) ∧
    (QueryPreviousBlockHash Unmarshal network channelName).map (fun o => (o.val, o.err))
      = some (r.PreviousBlockHash, none) := by
  obtain ⟨o, ho, he⟩ := Option.map_eq_some'.mp hErr
  have hv : o.val = some r := by
    rw [ho] at hVal
    simpa using hVal
  refine ⟨?_, ?_, ?_⟩
  · rw [(QueryBlockHeight_cases Unmarshal network channelName o ho).2 r he hv]; rfl
  · rw [(QueryCurrentBlockHash_cases Unmarshal network channelName o ho).2 r he hv]; rfl
  · rw [(QueryPreviousBlockHash_cases Unmarshal network channelName o ho).2 r he hv]; rfl

/-- C2 on the sample network, with the greatest `uint64` as decoded height. -/
theorem narrowed_queries_return_decoded_fields_witness :
    (QueryBlockInfo Sample.decodeInfo (some Sample.up) (lit "mychannel")).map (fun o => o.err)
      = some none ∧
    (QueryBlockInfo Sample.decodeInfo (some Sample.up) (lit "mychannel")).map (fun o => o.val)
      = some (some ⟨18446744073709551615, Slice.mk [8, 7], Slice.mk [3]⟩) ∧
    (QueryBlockHeight Sample.decodeInfo (some Sample.up) (lit "mychannel")).map
        (fun o => (o.val, o.err)) = some (18446744073709551615, none) ∧
    (QueryCurrentBlockHash Sample.decodeInfo (some Sample.up) (lit "mychannel")).map
        (fun o => (o.val, o.err)) = some (Slice.mk [8, 7], none) ∧
    (QueryPreviousBlockHash Sample.decodeInfo (some Sample.up) (lit "mychannel")).map
        (fun o => (o.val, o.err)) = some (Slice.mk [3], none) :=
  ⟨rfl, rfl, narrowed_queries_return_decoded_fields Sample.decodeInfo (some Sample.up)
    (lit "mychannel") ⟨18446744073709551615, Slice.mk [8, 7], Slice.mk [3]⟩ rfl rfl⟩

/-- C3: the request each wrapper sends, for every input. After the call the
log of the network is the log before it followed by exactly: for
`QueryChannels`, an evaluate of "GetChannels" on "cscc" with no argument; for
`QueryBlockInfo`, of "GetChainInfo" on "qscc" with `[channelName]`; for
`QueryBlockByIndex`, of "GetBlockByNumber" on "qscc" with
`[channelName, height]`; for `QueryBlockByHash`, of "GetBlockByHash" on "qscc"
with `[channelName, string(hash)]`; for `QueryBlockByTxID`, of "GetBlockByTxID"
on "qscc" with `[channelName, string(TxID)]`. -/
theorem requests_sent {Block : Type}
    (UnmarshalChannels : Slice Byte → proto.Result peer.ChannelQueryResponse)
    (UnmarshalInfo : Slice Byte → proto.Result common.BlockchainInfo)
    (UnmarshalBlock : Slice Byte → proto.Result Block)
    (network : client.Network) (channelName height : GoString) (hash TxID : Slice Byte) :
    ((QueryChannels UnmarshalChannels (some network)).map (fun o => o.network.log)
      = some (network.log ++
          [⟨client.RequestKind.evaluate, lit "cscc", lit "GetChannels", []⟩])) ∧
    ((QueryBlockInfo UnmarshalInfo (some network) channelName).map
        (fun o => o.network.log)
      = some (network.log ++
          [⟨client.RequestKind.evaluate, lit "qscc", lit "GetChainInfo",
            [channelName]⟩])) ∧
    ((QueryBlockByIndex UnmarshalBlock (some network) channelName height).map
        (fun o => o.network.log)
      = some (network.log ++
          [⟨client.RequestKind.evaluate, lit "qscc", lit "GetBlockByNumber",
            [channelName, height]⟩])) ∧
    ((QueryBlockByHash UnmarshalBlock (some network) channelName hash).map
        (fun o => o.network.log)
      = some (network.log ++
          [⟨client.RequestKind.evaluate, lit "qscc", lit "GetBlockByHash",
            [channelName, GoString.ofBytes hash]⟩])) ∧
    ((QueryBlockByTxID UnmarshalBlock (some network) channelName TxID).map
        (fun o => o.network.log)
      = some (network.log ++
          [⟨client.RequestKind.evaluate, lit "qscc", lit "GetBlockByTxID",
            [channelName, GoString.ofBytes TxID]⟩])) := by
  refine ⟨?_, ?_, ?_, ?_, ?_⟩
  · obtain ⟨o, ho, hn, _⟩ := QueryChannels_trace UnmarshalChannels network
    rw [ho]
    show some o.network.log = _
    rw [hn, (EvaluateTransaction_trace _ _ _).1]
    rfl
  · obtain ⟨o, ho, hn, _⟩ := QueryBlockInfo_trace UnmarshalInfo network channelName
    rw [ho]
    show some o.network.log = _
    rw [hn, (EvaluateTransaction_trace _ _ _).1]
    rfl
  · obtain ⟨o, ho, hn, _⟩ := QueryBlockByIndex_trace UnmarshalBlock network channelName height
    rw [ho]
    show some o.network.log = _
    rw [hn, (EvaluateTransaction_trace _ _ _).1]
    rfl
  · obtain ⟨o, ho, hn, _⟩ := QueryBlockByHash_trace UnmarshalBlock network channelName hash
    rw [ho]
    show some o.network.log = _
    rw [hn, (EvaluateTransaction_trace _ _ _).1]
    rfl
  · obtain ⟨o, ho, hn, _⟩ := QueryBlockByTxID_trace UnmarshalBlock network channelName TxID
    rw [ho]
    show some o.network.log = _
    rw [hn, (EvaluateTransaction_trace _ _ _).1]
    rfl

/-- C4, as the code has it: on a non-nil `network`, each of the eight functions
returns, and it returns a non-nil error if and only if its evaluate call
returns an error or the decoder returns an error on the bytes received; when
neither happens the error is nil and the value is the success value (the
channel ids, the decoded record, or the field of the decoded record). -/
theorem error_iff_evaluate_or_decode_fails {Block : Type}
    (UnmarshalChannels : Slice Byte → proto.Result peer.ChannelQueryResponse)
    (UnmarshalInfo : Slice Byte → proto.Result common.BlockchainInfo)
    (UnmarshalBlock : Slice Byte → proto.Result Block)
    (pointer : Option client.Network) (network : client.Network)
    (channelName height : GoString) (hash TxID : Slice Byte)
    (hLive : pointer = some network) :
    (∃ o, QueryChannels UnmarshalChannels pointer = some o ∧
      (o.err ≠ none ↔
        ((network.GetContract (lit "cscc")).EvaluateTransaction
        (lit "GetChannels") []).err ≠ none ∨
        (UnmarshalChannels ((network.GetContract (lit "cscc")).EvaluateTransaction
        (lit "GetChannels") []).val).err ≠ none) ∧
      (((network.GetContract (lit "cscc")).EvaluateTransaction
        (lit "GetChannels") []).err = none →
        (UnmarshalChannels ((network.GetContract (lit "cscc")).EvaluateTransaction
        (lit "GetChannels") []).val).err = none →
        o.err = none ∧
        o.val = Slice.mk ((UnmarshalChannels ((network.GetContract (lit "cscc")).EvaluateTransaction
        (lit "GetChannels") []).val).msg.Channels.map
          peer.ChannelInfo.ChannelId))) ∧
    (∃ o, QueryBlockHeight UnmarshalInfo pointer channelName = some o ∧
      (o.err ≠ none ↔
        ((network.GetContract (lit "qscc")).EvaluateTransaction
        (lit "GetChainInfo") [channelName]).err ≠ none ∨
        (UnmarshalInfo ((network.GetContract (lit "qscc")).EvaluateTransaction
        (lit "GetChainInfo") [channelName]).val).err ≠ none) ∧
      (((network.GetContract (lit "qscc")).EvaluateTransaction
        (lit "GetChainInfo") [channelName]).err = none →
        (UnmarshalInfo ((network.GetContract (lit "qscc")).EvaluateTransaction
        (lit "GetChainInfo") [channelName]).val).err = none →
        o.err = none ∧
        o.val = (UnmarshalInfo ((network.GetContract (lit "qscc")).EvaluateTransaction
        (lit "GetChainInfo") [channelName]).val).msg.Height)) ∧
    (∃ o, QueryCurrentBlockHash UnmarshalInfo pointer channelName = some o ∧
      (o.err ≠ none ↔
        ((network.GetContract (lit "qscc")).EvaluateTransaction
        (lit "GetChainInfo") [channelName]).err ≠ none ∨
        (UnmarshalInfo ((network.GetContract (lit "qscc")).EvaluateTransaction
        (lit "GetChainInfo") [channelName]).val).err ≠ none) ∧
      (((network.GetContract (lit "qscc")).EvaluateTransaction
        (lit "GetChainInfo") [channelName]).err = none →
        (UnmarshalInfo ((network.GetContract (lit "qscc")).EvaluateTransaction
        (lit "GetChainInfo") [channelName]).val).err = none →
        o.err = none ∧
        o.val = (UnmarshalInfo ((network.GetContract (lit "qscc")).EvaluateTransaction
        (lit "GetChainInfo") [channelName]).val).msg.CurrentBlockHash)) ∧
    (∃ o, QueryPreviousBlockHash UnmarshalInfo pointer channelName = some o ∧
      (o.err ≠ none ↔
        ((network.GetContract (lit "qscc")).EvaluateTransaction
        (lit "GetChainInfo") [channelName]).err ≠ none ∨
        (UnmarshalInfo ((network.GetContract (lit "qscc")).EvaluateTransaction
        (lit "GetChainInfo") [channelName]).val).err ≠ none) ∧
      (((network.GetContract (lit "qscc")).EvaluateTransaction
        (lit "GetChainInfo") [channelName]).err = none →
        (UnmarshalInfo ((network.GetContract (lit "qscc")).EvaluateTransaction
        (lit "GetChainInfo") [channelName]).val).err = none →
        o.err = none ∧
        o.val = (UnmarshalInfo ((network.GetContract (lit "qscc")).EvaluateTransaction
        (lit "GetChainInfo") [channelName]).val).msg.PreviousBlockHash)) ∧
    (∃ o, QueryBlockInfo UnmarshalInfo pointer channelName = some o ∧
      (o.err ≠ none ↔
        ((network.GetContract (lit "qscc")).EvaluateTransaction
        (lit "GetChainInfo") [channelName]).err ≠ none ∨
        (UnmarshalInfo ((network.GetContract (lit "qscc")).EvaluateTransaction
        (lit "GetChainInfo") [channelName]).val).err ≠ none) ∧
      (((network.GetContract (lit "qscc")).EvaluateTransaction
        (lit "GetChainInfo") [channelName]).err = none →
        (UnmarshalInfo ((network.GetContract (lit "qscc")).EvaluateTransaction
        (lit "GetChainInfo") [channelName]).val).err = none →
        o.err = none ∧
        o.val = some (UnmarshalInfo ((network.GetContract (lit "qscc")).EvaluateTransaction
        (lit "GetChainInfo") [channelName]).val).msg)) ∧
    (∃ o, QueryBlockByIndex UnmarshalBlock pointer channelName height = some o ∧
      (o.err ≠ none ↔
        ((network.GetContract (lit "qscc")).EvaluateTransaction
        (lit "GetBlockByNumber") [channelName, height]).err ≠ none ∨
        (UnmarshalBlock ((network.GetContract (lit "qscc")).EvaluateTransaction
        (lit "GetBlockByNumber") [channelName, height]).val).err ≠ none) ∧
      (((network.GetContract (lit "qscc")).EvaluateTransaction
        (lit "GetBlockByNumber") [channelName, height]).err = none →
        (UnmarshalBlock ((network.GetContract (lit "qscc")).EvaluateTransaction
        (lit "GetBlockByNumber") [channelName, height]).val).err = none →
        o.err = none ∧
        o.val = some (UnmarshalBlock ((network.GetContract (lit "qscc")).EvaluateTransaction
        (lit "GetBlockByNumber") [channelName, height]).val).msg)) ∧
    (∃ o, QueryBlockByHash UnmarshalBlock pointer channelName hash = some o ∧
      (o.err ≠ none ↔
        ((network.GetContract (lit "qscc")).EvaluateTransaction
        (lit "GetBlockByHash") [channelName, GoString.ofBytes hash]).err ≠ none ∨
        (UnmarshalBlock ((network.GetContract (lit "qscc")).EvaluateTransaction
        (lit "GetBlockByHash") [channelName, GoString.ofBytes hash]).val).err ≠ none) ∧
      (((network.GetContract (lit "qscc")).EvaluateTransaction
        (lit "GetBlockByHash") [channelName, GoString.ofBytes hash]).err = none →
        (UnmarshalBlock ((network.GetContract (lit "qscc")).EvaluateTransaction
        (lit "GetBlockByHash") [channelName, GoString.ofBytes hash]).val).err = none →
        o.err = none ∧
        o.val = some (UnmarshalBlock ((network.GetContract (lit "qscc")).EvaluateTransaction
        (lit "GetBlockByHash") [channelName, GoString.ofBytes hash]).val).msg)) ∧
    (∃ o, QueryBlockByTxID UnmarshalBlock pointer channelName TxID = some o ∧
      (o.err ≠ none ↔
        ((network.GetContract (lit "qscc")).EvaluateTransaction
        (lit "GetBlockByTxID") [channelName, GoString.ofBytes TxID]).err ≠ none ∨
        (UnmarshalBlock ((network.GetContract (lit "qscc")).EvaluateTransaction
        (lit "GetBlockByTxID") [channelName, GoString.ofBytes TxID]).val).err ≠ none) ∧
      (((network.GetContract (lit "qscc")).EvaluateTransaction
        (lit "GetBlockByTxID") [channelName, GoString.ofBytes TxID]).err = none →
        (UnmarshalBlock ((network.GetContract (lit "qscc")).EvaluateTransaction
        (lit "GetBlockByTxID") [channelName, GoString.ofBytes TxID]).val).err = none →
        o.err = none ∧
        o.val = some (UnmarshalBlock ((network.GetContract (lit "qscc")).EvaluateTransaction
        (lit "GetBlockByTxID") [channelName, GoString.ofBytes TxID]).val).msg)) := by
  subst hLive
  refine ⟨?_, ?_, ?_, ?_, ?_, ?_, ?_, ?_⟩
  · obtain ⟨h1, h2, h3⟩ := QueryChannels_cases UnmarshalChannels network
    cases he : ((network.GetContract (lit "cscc")).EvaluateTransaction
        (lit "GetChannels") []).err with
    | some e => exact ⟨_, h1 e he, by simp, by simp⟩
    | none =>
      cases hd : (UnmarshalChannels ((network.GetContract (lit "cscc")).EvaluateTransaction
        (lit "GetChannels") []).val).err with
      | some d => exact ⟨_, h2 d he hd, by simp, by simp⟩
      | none => exact ⟨_, h3 he hd, by simp, by simp⟩
  · obtain ⟨h1, h2, h3⟩ := QueryBlockInfo_cases UnmarshalInfo network channelName
    cases he : ((network.GetContract (lit "qscc")).EvaluateTransaction
        (lit "GetChainInfo") [channelName]).err with
    | some e =>
      exact ⟨_, (QueryBlockHeight_cases UnmarshalInfo (some network) channelName _
          (h1 e he)).1 _ rfl,
        by simp, by simp⟩
    | none =>
      cases hd : (UnmarshalInfo ((network.GetContract (lit "qscc")).EvaluateTransaction
        (lit "GetChainInfo") [channelName]).val).err with
      | some d =>
        exact ⟨_, (QueryBlockHeight_cases UnmarshalInfo (some network) channelName _
            (h2 d he hd)).1 _ rfl,
          by simp, by simp⟩
      | none =>
        exact ⟨_, (QueryBlockHeight_cases UnmarshalInfo (some network) channelName _
            (h3 he hd)).2 _ rfl rfl,
          by simp, by simp⟩
  · obtain ⟨h1, h2, h3⟩ := QueryBlockInfo_cases UnmarshalInfo network channelName
    cases he : ((network.GetContract (lit "qscc")).EvaluateTransaction
        (lit "GetChainInfo") [channelName]).err with
    | some e =>
      exact ⟨_, (QueryCurrentBlockHash_cases UnmarshalInfo (some network) channelName _
          (h1 e he)).1 _ rfl,
        by simp, by simp⟩
    | none =>
      cases hd : (UnmarshalInfo ((network.GetContract (lit "qscc")).EvaluateTransaction
        (lit "GetChainInfo") [channelName]).val).err with
      | some d =>
        exact ⟨_, (QueryCurrentBlockHash_cases UnmarshalInfo (some network) channelName _
            (h2 d he hd)).1 _ rfl,
          by simp, by simp⟩
      | none =>
        exact ⟨_, (QueryCurrentBlockHash_cases UnmarshalInfo (some network) channelName _
            (h3 he hd)).2 _ rfl rfl,
          by simp, by simp⟩
  · obtain ⟨h1, h2, h3⟩ := QueryBlockInfo_cases UnmarshalInfo network channelName
    cases he : ((network.GetContract (lit "qscc")).EvaluateTransaction
        (lit "GetChainInfo") [channelName]).err with
    | some e =>
      exact ⟨_, (QueryPreviousBlockHash_cases UnmarshalInfo (some network) channelName _
          (h1 e he)).1 _ rfl,
        by simp, by simp⟩
    | none =>
      cases hd : (UnmarshalInfo ((network.GetContract (lit "qscc")).EvaluateTransaction
        (lit "GetChainInfo") [channelName]).val).err with
      | some d =>
        exact ⟨_, (QueryPreviousBlockHash_cases UnmarshalInfo (some network) channelName _
            (h2 d he hd)).1 _ rfl,
          by simp, by simp⟩
      | none =>
        exact ⟨_, (QueryPreviousBlockHash_cases UnmarshalInfo (some network) channelName _
            (h3 he hd)).2 _ rfl rfl,
          by simp, by simp⟩
  · obtain ⟨h1, h2, h3⟩ := QueryBlockInfo_cases UnmarshalInfo network channelName
    cases he : ((network.GetContract (lit "qscc")).EvaluateTransaction
        (lit "GetChainInfo") [channelName]).err with
    | some e => exact ⟨_, h1 e he, by simp, by simp⟩
    | none =>
      cases hd : (UnmarshalInfo ((network.GetContract (lit "qscc")).EvaluateTransaction
        (lit "GetChainInfo") [channelName]).val).err with
      | some d => exact ⟨_, h2 d he hd, by simp, by simp⟩
      | none => exact ⟨_, h3 he hd, by simp, by simp⟩
  · obtain ⟨h1, h2, h3⟩ := QueryBlockByIndex_cases UnmarshalBlock network channelName height
    cases he : ((network.GetContract (lit "qscc")).EvaluateTransaction
        (lit "GetBlockByNumber") [channelName, height]).err with
    | some e => exact ⟨_, h1 e he, by simp, by simp⟩
    | none =>
      cases hd : (UnmarshalBlock ((network.GetContract (lit "qscc")).EvaluateTransaction
        (lit "GetBlockByNumber") [channelName, height]).val).err with
      | some d => exact ⟨_, h2 d he hd, by simp, by simp⟩
      | none => exact ⟨_, h3 he hd, by simp, by simp⟩
  · obtain ⟨h1, h2, h3⟩ := QueryBlockByHash_cases UnmarshalBlock network channelName hash
    cases he : ((network.GetContract (lit "qscc")).EvaluateTransaction
        (lit "GetBlockByHash") [channelName, GoString.ofBytes hash]).err with
    | some e => exact ⟨_, h1 e he, by simp, by simp⟩
    | none =>
      cases hd : (UnmarshalBlock ((network.GetContract (lit "qscc")).EvaluateTransaction
        (lit "GetBlockByHash") [channelName, GoString.ofBytes hash]).val).err with
      | some d => exact ⟨_, h2 d he hd, by simp, by simp⟩
      | none => exact ⟨_, h3 he hd, by simp, by simp⟩
  · obtain ⟨h1, h2, h3⟩ := QueryBlockByTxID_cases UnmarshalBlock network channelName TxID
    cases he : ((network.GetContract (lit "qscc")).EvaluateTransaction
        (lit "GetBlockByTxID") [channelName, GoString.ofBytes TxID]).err with
    | some e => exact ⟨_, h1 e he, by simp, by simp⟩
    | none =>
      cases hd : (UnmarshalBlock ((network.GetContract (lit "qscc")).EvaluateTransaction
        (lit "GetBlockByTxID") [channelName, GoString.ofBytes TxID]).val).err with
      | some d => exact ⟨_, h2 d he hd, by simp, by simp⟩
      | none => exact ⟨_, h3 he hd, by simp, by simp⟩

/-- C4 on the sample network, which is not nil: the eight functions return. -/
theorem error_iff_evaluate_or_decode_fails_witness :
    ((some Sample.up : Option client.Network) = some Sample.up) ∧
    ((∃ o, QueryChannels Sample.decodeChannels (some Sample.up) = some o ∧
      (o.err ≠ none ↔
        ((Sample.up.GetContract (lit "cscc")).EvaluateTransaction
        (lit "GetChannels") []).err ≠ none ∨
        (Sample.decodeChannels ((Sample.up.GetContract (lit "cscc")).EvaluateTransaction
        (lit "GetChannels") []).val).err ≠ none) ∧
      (((Sample.up.GetContract (lit "cscc")).EvaluateTransaction
        (lit "GetChannels") []).err = none →
        (Sample.decodeChannels ((Sample.up.GetContract (lit "cscc")).EvaluateTransaction
        (lit "GetChannels") []).val).err = none →
        o.err = none ∧
        o.val = Slice.mk ((Sample.decodeChannels ((Sample.up.GetContract
            (lit "cscc")).EvaluateTransaction
        (lit "GetChannels") []).val).msg.Channels.map
          peer.ChannelInfo.ChannelId))) ∧
     (∃ o, QueryBlockHeight Sample.decodeInfo (some Sample.up) (lit "mychannel") = some o ∧
      (o.err ≠ none ↔
        ((Sample.up.GetContract (lit "qscc")).EvaluateTransaction
        (lit "GetChainInfo") [lit "mychannel"]).err ≠ none ∨
        (Sample.decodeInfo ((Sample.up.GetContract (lit "qscc")).EvaluateTransaction
        (lit "GetChainInfo") [lit "mychannel"]).val).err ≠ none) ∧
      (((Sample.up.GetContract (lit "qscc")).EvaluateTransaction
        (lit "GetChainInfo") [lit "mychannel"]).err = none →
        (Sample.decodeInfo ((Sample.up.GetContract (lit "qscc")).EvaluateTransaction
        (lit "GetChainInfo") [lit "mychannel"]).val).err = none →
        o.err = none ∧
        o.val = (Sample.decodeInfo ((Sample.up.GetContract (lit "qscc")).EvaluateTransaction
        (lit "GetChainInfo") [lit "mychannel"]).val).msg.Height)) ∧
     (∃ o, QueryCurrentBlockHash Sample.decodeInfo (some Sample.up) (lit "mychannel") = some o ∧
      (o.err ≠ none ↔
        ((Sample.up.GetContract (lit "qscc")).EvaluateTransaction
        (lit "GetChainInfo") [lit "mychannel"]).err ≠ none ∨
        (Sample.decodeInfo ((Sample.up.GetContract (lit "qscc")).EvaluateTransaction
        (lit "GetChainInfo") [lit "mychannel"]).val).err ≠ none) ∧
      (((Sample.up.GetContract (lit "qscc")).EvaluateTransaction
        (lit "GetChainInfo") [lit "mychannel"]).err = none →
        (Sample.decodeInfo ((Sample.up.GetContract (lit "qscc")).EvaluateTransaction
        (lit "GetChainInfo") [lit "mychannel"]).val).err = none →
        o.err = none ∧
        o.val = (Sample.decodeInfo ((Sample.up.GetContract (lit "qscc")).EvaluateTransaction
        (lit "GetChainInfo") [lit "mychannel"]).val).msg.CurrentBlockHash)) ∧
     (∃ o, QueryPreviousBlockHash Sample.decodeInfo (some Sample.up) (lit "mychannel") = some o ∧
      (o.err ≠ none ↔
        ((Sample.up.GetContract (lit "qscc")).EvaluateTransaction
        (lit "GetChainInfo") [lit "mychannel"]).err ≠ none ∨
        (Sample.decodeInfo ((Sample.up.GetContract (lit "qscc")).EvaluateTransaction
        (lit "GetChainInfo") [lit "mychannel"]).val).err ≠ none) ∧
      (((Sample.up.GetContract (lit "qscc")).EvaluateTransaction
        (lit "GetChainInfo") [lit "mychannel"]).err = none →
        (Sample.decodeInfo ((Sample.up.GetContract (lit "qscc")).EvaluateTransaction
        (lit "GetChainInfo") [lit "mychannel"]).val).err = none →
        o.err = none ∧
        o.val = (Sample.decodeInfo ((Sample.up.GetContract (lit "qscc")).EvaluateTransaction
        (lit "GetChainInfo") [lit "mychannel"]).val).msg.PreviousBlockHash)) ∧
     (∃ o, QueryBlockInfo Sample.decodeInfo (some Sample.up) (lit "mychannel") = some o ∧
      (o.err ≠ none ↔
        ((Sample.up.GetContract (lit "qscc")).EvaluateTransaction
        (lit "GetChainInfo") [lit "mychannel"]).err ≠ none ∨
        (Sample.decodeInfo ((Sample.up.GetContract (lit "qscc")).EvaluateTransaction
        (lit "GetChainInfo") [lit "mychannel"]).val).err ≠ none) ∧
      (((Sample.up.GetContract (lit "qscc")).EvaluateTransaction
        (lit "GetChainInfo") [lit "mychannel"]).err = none →
        (Sample.decodeInfo ((Sample.up.GetContract (lit "qscc")).EvaluateTransaction
        (lit "GetChainInfo") [lit "mychannel"]).val).err = none →
        o.err = none ∧
        o.val = some (Sample.decodeInfo ((Sample.up.GetContract (lit "qscc")).EvaluateTransaction
        (lit "GetChainInfo") [lit "mychannel"]).val).msg)) ∧
     (∃ o, QueryBlockByIndex Sample.decodeBlock (some Sample.up) (lit "mychannel") (lit "5")
         = some o ∧
      (o.err ≠ none ↔
        ((Sample.up.GetContract (lit "qscc")).EvaluateTransaction
        (lit "GetBlockByNumber") [lit "mychannel", lit "5"]).err ≠ none ∨
        (Sample.decodeBlock ((Sample.up.GetContract (lit "qscc")).EvaluateTransaction
        (lit "GetBlockByNumber") [lit "mychannel", lit "5"]).val).err ≠ none) ∧
      (((Sample.up.GetContract (lit "qscc")).EvaluateTransaction
        (lit "GetBlockByNumber") [lit "mychannel", lit "5"]).err = none →
        (Sample.decodeBlock ((Sample.up.GetContract (lit "qscc")).EvaluateTransaction
        (lit "GetBlockByNumber") [lit "mychannel", lit "5"]).val).err = none →
        o.err = none ∧
        o.val = some (Sample.decodeBlock ((Sample.up.GetContract (lit "qscc")).EvaluateTransaction
        (lit "GetBlockByNumber") [lit "mychannel", lit "5"]).val).msg)) ∧
     (∃ o, QueryBlockByHash Sample.decodeBlock (some Sample.up) (lit "mychannel")
         (Slice.mk [255, 254]) = some o ∧
      (o.err ≠ none ↔
        ((Sample.up.GetContract (lit "qscc")).EvaluateTransaction
        (lit "GetBlockByHash") [lit "mychannel", GoString.ofBytes
            (Slice.mk [255, 254])]).err ≠ none ∨
        (Sample.decodeBlock ((Sample.up.GetContract (lit "qscc")).EvaluateTransaction
        (lit "GetBlockByHash") [lit "mychannel", GoString.ofBytes
            (Slice.mk [255, 254])]).val).err ≠ none) ∧
      (((Sample.up.GetContract (lit "qscc")).EvaluateTransaction
        (lit "GetBlockByHash") [lit "mychannel", GoString.ofBytes (Slice.mk [255, 254])]).err
            = none →
        (Sample.decodeBlock ((Sample.up.GetContract (lit "qscc")).EvaluateTransaction
        (lit "GetBlockByHash") [lit "mychannel", GoString.ofBytes (Slice.mk [255, 254])]).val).err
            = none →
        o.err = none ∧
        o.val = some (Sample.decodeBlock ((Sample.up.GetContract (lit "qscc")).EvaluateTransaction
        (lit "GetBlockByHash") [lit "mychannel", GoString.ofBytes
            (Slice.mk [255, 254])]).val).msg)) ∧
     (∃ o, QueryBlockByTxID Sample.decodeBlock (some Sample.up) (lit "mychannel")
         (Slice.mk [116, 120]) = some o ∧
      (o.err ≠ none ↔
        ((Sample.up.GetContract (lit "qscc")).EvaluateTransaction
        (lit "GetBlockByTxID") [lit "mychannel", GoString.ofBytes
            (Slice.mk [116, 120])]).err ≠ none ∨
        (Sample.decodeBlock ((Sample.up.GetContract (lit "qscc")).EvaluateTransaction
        (lit "GetBlockByTxID") [lit "mychannel", GoString.ofBytes
            (Slice.mk [116, 120])]).val).err ≠ none) ∧
      (((Sample.up.GetContract (lit "qscc")).EvaluateTransaction
        (lit "GetBlockByTxID") [lit "mychannel", GoString.ofBytes (Slice.mk [116, 120])]).err
            = none →
        (Sample.decodeBlock ((Sample.up.GetContract (lit "qscc")).EvaluateTransaction
        (lit "GetBlockByTxID") [lit "mychannel", GoString.ofBytes (Slice.mk [116, 120])]).val).err
            = none →
        o.err = none ∧
        o.val = some (Sample.decodeBlock ((Sample.up.GetContract (lit "qscc")).EvaluateTransaction
        (lit "GetBlockByTxID") [lit "mychannel", GoString.ofBytes
            (Slice.mk [116, 120])]).val).msg))) :=
  ⟨rfl, error_iff_evaluate_or_decode_fails Sample.decodeChannels Sample.decodeInfo Sample.decodeBlock
      (some Sample.up) Sample.up (lit "mychannel") (lit "5") (Slice.mk [255, 254])
      (Slice.mk [116, 120]) rfl⟩

/-- C4 as stated fails on a nil `network`: there `network.GetContract` panics,
so none of the eight functions returns, neither an error nor a success value,
although no evaluate call and no decoder has failed. -/
theorem no_return_on_nil_network :
    ¬ (∃ o, QueryChannels Sample.decodeChannels none = some o) ∧
    ¬ (∃ o, QueryBlockHeight Sample.decodeInfo none (lit "mychannel") = some o) ∧
    ¬ (∃ o, QueryCurrentBlockHash Sample.decodeInfo none (lit "mychannel") = some o) ∧
    ¬ (∃ o, QueryPreviousBlockHash Sample.decodeInfo none (lit "mychannel") = some o) ∧
    ¬ (∃ o, QueryBlockInfo Sample.decodeInfo none (lit "mychannel") = some o) ∧
    ¬ (∃ o, QueryBlockByIndex Sample.decodeBlock none (lit "mychannel") (lit "5") = some o) ∧
    ¬ (∃ o, QueryBlockByHash Sample.decodeBlock none (lit "mychannel") (Slice.mk [255, 254])
      = some o) ∧
    ¬ (∃ o, QueryBlockByTxID Sample.decodeBlock none (lit "mychannel") (Slice.mk [116, 120])
      = some o) := by
  refine ⟨?_, ?_, ?_, ?_, ?_, ?_, ?_, ?_⟩ <;>
    · rintro ⟨o, ho⟩
      cases ho

/-- C5: when the evaluate call succeeds and its bytes decode to a record,
`QueryBlockInfo` returns a pointer to that record (with its `Height`,
`CurrentBlockHash` and `PreviousBlockHash` as decoded) and a nil error, and
`QueryBlockByIndex`, `QueryBlockByHash` and `QueryBlockByTxID` each return a
pointer to the decoded block, unchanged, and a nil error. -/
theorem decoded_record_returned_whole {Block : Type}
    (UnmarshalInfo : Slice Byte → proto.Result common.BlockchainInfo)
    (UnmarshalBlock : Slice Byte → proto.Result Block)
    (network : client.Network) (channelName height : GoString) (hash TxID : Slice Byte)
    (r : common.BlockchainInfo) (b : Block) :
    (((network.GetContract (lit "qscc")).EvaluateTransaction
        (lit "GetChainInfo") [channelName]).err = none →
      (UnmarshalInfo ((network.GetContract (lit "qscc")).EvaluateTransaction
        (lit "GetChainInfo") [channelName]).val).err = none →
      (UnmarshalInfo ((network.GetContract (lit "qscc")).EvaluateTransaction
        (lit "GetChainInfo") [channelName]).val).msg = r →
      (QueryBlockInfo UnmarshalInfo (some network) channelName).map
          (fun o => (o.val, o.err))
        = some (some r, none)) ∧
    (((network.GetContract (lit "qscc")).EvaluateTransaction
        (lit "GetBlockByNumber") [channelName, height]).err = none →
      (UnmarshalBlock ((network.GetContract (lit "qscc")).EvaluateTransaction
        (lit "GetBlockByNumber") [channelName, height]).val).err = none →
      (UnmarshalBlock ((network.GetContract (lit "qscc")).EvaluateTransaction
        (lit "GetBlockByNumber") [channelName, height]).val).msg = b →
      (QueryBlockByIndex UnmarshalBlock (some network) channelName height).map
          (fun o => (o.val, o.err))
        = some (some b, none)) ∧
    (((network.GetContract (lit "qscc")).EvaluateTransaction
        (lit "GetBlockByHash") [channelName, GoString.ofBytes hash]).err = none →
      (UnmarshalBlock ((network.GetContract (lit "qscc")).EvaluateTransaction
        (lit "GetBlockByHash") [channelName, GoString.ofBytes hash]).val).err = none →
      (UnmarshalBlock ((network.GetContract (lit "qscc")).EvaluateTransaction
        (lit "GetBlockByHash") [channelName, GoString.ofBytes hash]).val).msg = b →
      (QueryBlockByHash UnmarshalBlock (some network) channelName hash).map
          (fun o => (o.val, o.err))
        = some (some b, none)) ∧
    (((network.GetContract (lit "qscc")).EvaluateTransaction
        (lit "GetBlockByTxID") [channelName, GoString.ofBytes TxID]).err = none →
      (UnmarshalBlock ((network.GetContract (lit "qscc")).EvaluateTransaction
        (lit "GetBlockByTxID") [channelName, GoString.ofBytes TxID]).val).err = none →
      (UnmarshalBlock ((network.GetContract (lit "qscc")).EvaluateTransaction
        (lit "GetBlockByTxID") [channelName, GoString.ofBytes TxID]).val).msg = b →
      (QueryBlockByTxID UnmarshalBlock (some network) channelName TxID).map
          (fun o => (o.val, o.err))
        = some (some b, none)) := by
  refine ⟨?_, ?_, ?_, ?_⟩
  · intro he hd hm
    rw [(QueryBlockInfo_cases UnmarshalInfo network channelName).2.2 he hd, hm]
    rfl
  · intro he hd hm
    rw [(QueryBlockByIndex_cases UnmarshalBlock network channelName height).2.2 he hd, hm]
    rfl
  · intro he hd hm
    rw [(QueryBlockByHash_cases UnmarshalBlock network channelName hash).2.2 he hd, hm]
    rfl
  · intro he hd hm
    rw [(QueryBlockByTxID_cases UnmarshalBlock network channelName TxID).2.2 he hd, hm]
    rfl

/-- C5 on the sample network: the decoded record and the decoded block come
back as they were decoded. -/
theorem decoded_record_returned_whole_witness :
    ((((Sample.up.GetContract (lit "qscc")).EvaluateTransaction
        (lit "GetChainInfo") [lit "mychannel"]).err = none ∧
      (Sample.decodeInfo ((Sample.up.GetContract (lit "qscc")).EvaluateTransaction
        (lit "GetChainInfo") [lit "mychannel"]).val).err = none ∧
      (Sample.decodeInfo ((Sample.up.GetContract (lit "qscc")).EvaluateTransaction
        (lit "GetChainInfo") [lit "mychannel"]).val).msg
            = (⟨18446744073709551615, Slice.mk [8, 7], Slice.mk [3]⟩ : common.BlockchainInfo)) ∧
    ((QueryBlockInfo Sample.decodeInfo (some Sample.up) (lit "mychannel")).map
          (fun o => (o.val, o.err))
        = some (some
            (⟨18446744073709551615, Slice.mk [8, 7], Slice.mk [3]⟩ : common.BlockchainInfo), none))) ∧
    ((((Sample.up.GetContract (lit "qscc")).EvaluateTransaction
        (lit "GetBlockByNumber") [lit "mychannel", lit "5"]).err = none ∧
      (Sample.decodeBlock ((Sample.up.GetContract (lit "qscc")).EvaluateTransaction
        (lit "GetBlockByNumber") [lit "mychannel", lit "5"]).val).err = none ∧
      (Sample.decodeBlock ((Sample.up.GetContract (lit "qscc")).EvaluateTransaction
        (lit "GetBlockByNumber") [lit "mychannel", lit "5"]).val).msg = ([8, 7] : List Byte)) ∧
    ((QueryBlockByIndex Sample.decodeBlock (some Sample.up) (lit "mychannel") (lit "5")).map
          (fun o => (o.val, o.err))
        = some (some ([8, 7] : List Byte), none))) ∧
    ((((Sample.up.GetContract (lit "qscc")).EvaluateTransaction
        (lit "GetBlockByHash") [lit "mychannel", GoString.ofBytes (Slice.mk [255, 254])]).err
            = none ∧
      (Sample.decodeBlock ((Sample.up.GetContract (lit "qscc")).EvaluateTransaction
        (lit "GetBlockByHash") [lit "mychannel", GoString.ofBytes (Slice.mk [255, 254])]).val).err
            = none ∧
      (Sample.decodeBlock ((Sample.up.GetContract (lit "qscc")).EvaluateTransaction
        (lit "GetBlockByHash") [lit "mychannel", GoString.ofBytes (Slice.mk [255, 254])]).val).msg
            = ([8, 7] : List Byte)) ∧
    ((QueryBlockByHash Sample.decodeBlock (some Sample.up) (lit "mychannel")
        (Slice.mk [255, 254])).map
          (fun o => (o.val, o.err))
        = some (some ([8, 7] : List Byte), none))) ∧
    ((((Sample.up.GetContract (lit "qscc")).EvaluateTransaction
        (lit "GetBlockByTxID") [lit "mychannel", GoString.ofBytes (Slice.mk [116, 120])]).err
            = none ∧
      (Sample.decodeBlock ((Sample.up.GetContract (lit "qscc")).EvaluateTransaction
        (lit "GetBlockByTxID") [lit "mychannel", GoString.ofBytes (Slice.mk [116, 120])]).val).err
            = none ∧
      (Sample.decodeBlock ((Sample.up.GetContract (lit "qscc")).EvaluateTransaction
        (lit "GetBlockByTxID") [lit "mychannel", GoString.ofBytes (Slice.mk [116, 120])]).val).msg
            = ([8, 7] : List Byte)) ∧
    ((QueryBlockByTxID Sample.decodeBlock (some Sample.up) (lit "mychannel")
        (Slice.mk [116, 120])).map
          (fun o => (o.val, o.err))
        = some (some ([8, 7] : List Byte), none))) :=
  ⟨⟨⟨rfl, rfl, rfl⟩, (decoded_record_returned_whole Sample.decodeInfo Sample.decodeBlock Sample.up
      (lit "mychannel") (lit "5") (Slice.mk [255, 254]) (Slice.mk [116, 120])
      ⟨18446744073709551615, Slice.mk [8, 7], Slice.mk [3]⟩ [8, 7]).1
      rfl rfl rfl⟩,
   ⟨⟨rfl, rfl, rfl⟩, (decoded_record_returned_whole Sample.decodeInfo Sample.decodeBlock Sample.up
      (lit "mychannel") (lit "5") (Slice.mk [255, 254]) (Slice.mk [116, 120])
      ⟨18446744073709551615, Slice.mk [8, 7], Slice.mk [3]⟩ [8, 7]).2.1
      rfl rfl rfl⟩,
   ⟨⟨rfl, rfl, rfl⟩, (decoded_record_returned_whole Sample.decodeInfo Sample.decodeBlock Sample.up
      (lit "mychannel") (lit "5") (Slice.mk [255, 254]) (Slice.mk [116, 120])
      ⟨18446744073709551615, Slice.mk [8, 7], Slice.mk [3]⟩ [8, 7]).2.2.1
      rfl rfl rfl⟩,
   ⟨⟨rfl, rfl, rfl⟩, (decoded_record_returned_whole Sample.decodeInfo Sample.decodeBlock Sample.up
      (lit "mychannel") (lit "5") (Slice.mk [255, 254]) (Slice.mk [116, 120])
      ⟨18446744073709551615, Slice.mk [8, 7], Slice.mk [3]⟩ [8, 7]).2.2.2
      rfl rfl rfl⟩⟩

/-- C6, as the code has it: on a non-nil `network`, every call of any of the
eight functions returns and makes exactly one transaction call, an evaluate
(never a submit, never a second try); at most one request is issued to the
peer, that evaluate request: exactly one when no fault stops the client, and
none, with a non-nil error returned, when the call fails before anything is
issued. `QueryBlockHeight`, `QueryCurrentBlockHash` and
`QueryPreviousBlockHash` leave the calls and the requests as their one call of
`QueryBlockInfo` leaves them. -/
theorem one_evaluate_call_at_most_one_request {Block : Type}
    (UnmarshalChannels : Slice Byte → proto.Result peer.ChannelQueryResponse)
    (UnmarshalInfo : Slice Byte → proto.Result common.BlockchainInfo)
    (UnmarshalBlock : Slice Byte → proto.Result Block)
    (pointer : Option client.Network) (network : client.Network)
    (channelName height : GoString) (hash TxID : Slice Byte)
    (hLive : pointer = some network) :
    (∃ o request, QueryChannels UnmarshalChannels pointer = some o ∧
      request = ⟨client.RequestKind.evaluate, lit "cscc", lit "GetChannels",
        []⟩ ∧
      o.network.log = network.log ++ [request] ∧
      (network.fault request = none → o.network.sent = network.sent ++ [request]) ∧
      (network.fault request ≠ none → o.network.sent = network.sent ∧ o.err ≠ none)) ∧
    (∃ o request, QueryBlockHeight UnmarshalInfo pointer channelName = some o ∧
      request = ⟨client.RequestKind.evaluate, lit "qscc", lit "GetChainInfo",
        [channelName]⟩ ∧
      o.network.log = network.log ++ [request] ∧
      (network.fault request = none → o.network.sent = network.sent ++ [request]) ∧
      (network.fault request ≠ none → o.network.sent = network.sent ∧ o.err ≠ none) ∧
      (QueryBlockInfo UnmarshalInfo pointer channelName).map
          (fun i => (i.network.log, i.network.sent))
        = some (o.network.log, o.network.sent)) ∧
    (∃ o request, QueryCurrentBlockHash UnmarshalInfo pointer channelName = some o ∧
      request = ⟨client.RequestKind.evaluate, lit "qscc", lit "GetChainInfo",
        [channelName]⟩ ∧
      o.network.log = network.log ++ [request] ∧
      (network.fault request = none → o.network.sent = network.sent ++ [request]) ∧
      (network.fault request ≠ none → o.network.sent = network.sent ∧ o.err ≠ none) ∧
      (QueryBlockInfo UnmarshalInfo pointer channelName).map
          (fun i => (i.network.log, i.network.sent))
        = some (o.network.log, o.network.sent)) ∧
    (∃ o request, QueryPreviousBlockHash UnmarshalInfo pointer channelName = some o ∧
      request = ⟨client.RequestKind.evaluate, lit "qscc", lit "GetChainInfo",
        [channelName]⟩ ∧
      o.network.log = network.log ++ [request] ∧
      (network.fault request = none → o.network.sent = network.sent ++ [request]) ∧
      (network.fault request ≠ none → o.network.sent = network.sent ∧ o.err ≠ none) ∧
      (QueryBlockInfo UnmarshalInfo pointer channelName).map
          (fun i => (i.network.log, i.network.sent))
        = some (o.network.log, o.network.sent)) ∧
    (∃ o request, QueryBlockInfo UnmarshalInfo pointer channelName = some o ∧
      request = ⟨client.RequestKind.evaluate, lit "qscc", lit "GetChainInfo",
        [channelName]⟩ ∧
      o.network.log = network.log ++ [request] ∧
      (network.fault request = none → o.network.sent = network.sent ++ [request]) ∧
      (network.fault request ≠ none → o.network.sent = network.sent ∧ o.err ≠ none)) ∧
    (∃ o request, QueryBlockByIndex UnmarshalBlock pointer channelName height = some o ∧
      request = ⟨client.RequestKind.evaluate, lit "qscc", lit "GetBlockByNumber",
        [channelName, height]⟩ ∧
      o.network.log = network.log ++ [request] ∧
      (network.fault request = none → o.network.sent = network.sent ++ [request]) ∧
      (network.fault request ≠ none → o.network.sent = network.sent ∧ o.err ≠ none)) ∧
    (∃ o request, QueryBlockByHash UnmarshalBlock pointer channelName hash = some o ∧
      request = ⟨client.RequestKind.evaluate, lit "qscc", lit "GetBlockByHash",
        [channelName, GoString.ofBytes hash]⟩ ∧
      o.network.log = network.log ++ [request] ∧
      (network.fault request = none → o.network.sent = network.sent ++ [request]) ∧
      (network.fault request ≠ none → o.network.sent = network.sent ∧ o.err ≠ none)) ∧
    (∃ o request, QueryBlockByTxID UnmarshalBlock pointer channelName TxID = some o ∧
      request = ⟨client.RequestKind.evaluate, lit "qscc", lit "GetBlockByTxID",
        [channelName, GoString.ofBytes TxID]⟩ ∧
      o.network.log = network.log ++ [request] ∧
      (network.fault request = none → o.network.sent = network.sent ++ [request]) ∧
      (network.fault request ≠ none → o.network.sent = network.sent ∧ o.err ≠ none)) := by
  subst hLive
  refine ⟨?_, ?_, ?_, ?_, ?_, ?_, ?_, ?_⟩
  · obtain ⟨o, ho, hn, hf⟩ := QueryChannels_trace UnmarshalChannels network
    obtain ⟨t1, t2, t3⟩ := EvaluateTransaction_trace
      (network.GetContract (lit "cscc")) (lit "GetChannels") []
    refine ⟨o, _, ho, rfl, by rw [hn]; exact t1, fun h => by rw [hn]; exact t2 h,
      fun h => ⟨by rw [hn]; exact (t3 h).1, hf (t3 h).2⟩⟩
  · obtain ⟨o, ho, hn, hf⟩ := QueryBlockHeight_trace UnmarshalInfo network channelName
    obtain ⟨t1, t2, t3⟩ := EvaluateTransaction_trace
      (network.GetContract (lit "qscc")) (lit "GetChainInfo") [channelName]
    refine ⟨o, _, ho, rfl, by rw [hn]; exact t1, fun h => by rw [hn]; exact t2 h,
      fun h => ⟨by rw [hn]; exact (t3 h).1, hf (t3 h).2⟩, ?_⟩
    obtain ⟨i, hi, hin, _⟩ := QueryBlockInfo_trace UnmarshalInfo network channelName
    rw [hi]
    show some (i.network.log, i.network.sent) = _
    rw [hin, hn]
  · obtain ⟨o, ho, hn, hf⟩ := QueryCurrentBlockHash_trace UnmarshalInfo network channelName
    obtain ⟨t1, t2, t3⟩ := EvaluateTransaction_trace
      (network.GetContract (lit "qscc")) (lit "GetChainInfo") [channelName]
    refine ⟨o, _, ho, rfl, by rw [hn]; exact t1, fun h => by rw [hn]; exact t2 h,
      fun h => ⟨by rw [hn]; exact (t3 h).1, hf (t3 h).2⟩, ?_⟩
    obtain ⟨i, hi, hin, _⟩ := QueryBlockInfo_trace UnmarshalInfo network channelName
    rw [hi]
    show some (i.network.log, i.network.sent) = _
    rw [hin, hn]
  · obtain ⟨o, ho, hn, hf⟩ := QueryPreviousBlockHash_trace UnmarshalInfo network channelName
    obtain ⟨t1, t2, t3⟩ := EvaluateTransaction_trace
      (network.GetContract (lit "qscc")) (lit "GetChainInfo") [channelName]
    refine ⟨o, _, ho, rfl, by rw [hn]; exact t1, fun h => by rw [hn]; exact t2 h,
      fun h => ⟨by rw [hn]; exact (t3 h).1, hf (t3 h).2⟩, ?_⟩
    obtain ⟨i, hi, hin, _⟩ := QueryBlockInfo_trace UnmarshalInfo network channelName
    rw [hi]
    show some (i.network.log, i.network.sent) = _
    rw [hin, hn]
  · obtain ⟨o, ho, hn, hf⟩ := QueryBlockInfo_trace UnmarshalInfo network channelName
    obtain ⟨t1, t2, t3⟩ := EvaluateTransaction_trace
      (network.GetContract (lit "qscc")) (lit "GetChainInfo") [channelName]
    refine ⟨o, _, ho, rfl, by rw [hn]; exact t1, fun h => by rw [hn]; exact t2 h,
      fun h => ⟨by rw [hn]; exact (t3 h).1, hf (t3 h).2⟩⟩
  · obtain ⟨o, ho, hn, hf⟩ := QueryBlockByIndex_trace UnmarshalBlock network channelName height
    obtain ⟨t1, t2, t3⟩ := EvaluateTransaction_trace
      (network.GetContract (lit "qscc")) (lit "GetBlockByNumber") [channelName, height]
    refine ⟨o, _, ho, rfl, by rw [hn]; exact t1, fun h => by rw [hn]; exact t2 h,
      fun h => ⟨by rw [hn]; exact (t3 h).1, hf (t3 h).2⟩⟩
  · obtain ⟨o, ho, hn, hf⟩ := QueryBlockByHash_trace UnmarshalBlock network channelName hash
    obtain ⟨t1, t2, t3⟩ := EvaluateTransaction_trace
      (network.GetContract (lit "qscc")) (lit "GetBlockByHash") [channelName, GoString.ofBytes hash]
    refine ⟨o, _, ho, rfl, by rw [hn]; exact t1, fun h => by rw [hn]; exact t2 h,
      fun h => ⟨by rw [hn]; exact (t3 h).1, hf (t3 h).2⟩⟩
  · obtain ⟨o, ho, hn, hf⟩ := QueryBlockByTxID_trace UnmarshalBlock network channelName TxID
    obtain ⟨t1, t2, t3⟩ := EvaluateTransaction_trace
      (network.GetContract (lit "qscc")) (lit "GetBlockByTxID") [channelName, GoString.ofBytes TxID]
    refine ⟨o, _, ho, rfl, by rw [hn]; exact t1, fun h => by rw [hn]; exact t2 h,
      fun h => ⟨by rw [hn]; exact (t3 h).1, hf (t3 h).2⟩⟩

/-- C6 on the sample network, which is not nil. -/
theorem one_evaluate_call_at_most_one_request_witness :
    ((some Sample.up : Option client.Network) = some Sample.up) ∧
    ((∃ o request, QueryChannels Sample.decodeChannels (some Sample.up) = some o ∧
      request = ⟨client.RequestKind.evaluate, lit "cscc", lit "GetChannels",
        []⟩ ∧
      o.network.log = Sample.up.log ++ [request] ∧
      (Sample.up.fault request = none → o.network.sent = Sample.up.sent ++ [request]) ∧
      (Sample.up.fault request ≠ none → o.network.sent = Sample.up.sent ∧ o.err ≠ none)) ∧
     (∃ o request, QueryBlockHeight Sample.decodeInfo (some Sample.up) (lit "mychannel") = some o ∧
      request = ⟨client.RequestKind.evaluate, lit "qscc", lit "GetChainInfo",
        [lit "mychannel"]⟩ ∧
      o.network.log = Sample.up.log ++ [request] ∧
      (Sample.up.fault request = none → o.network.sent = Sample.up.sent ++ [request]) ∧
      (Sample.up.fault request ≠ none → o.network.sent = Sample.up.sent ∧ o.err ≠ none) ∧
      (QueryBlockInfo Sample.decodeInfo (some Sample.up) (lit "mychannel")).map
          (fun i => (i.network.log, i.network.sent))
        = some (o.network.log, o.network.sent)) ∧
     (∃ o request, QueryCurrentBlockHash Sample.decodeInfo (some Sample.up) (lit "mychannel")
         = some o ∧
      request = ⟨client.RequestKind.evaluate, lit "qscc", lit "GetChainInfo",
        [lit "mychannel"]⟩ ∧
      o.network.log = Sample.up.log ++ [request] ∧
      (Sample.up.fault request = none → o.network.sent = Sample.up.sent ++ [request]) ∧
      (Sample.up.fault request ≠ none → o.network.sent = Sample.up.sent ∧ o.err ≠ none) ∧
      (QueryBlockInfo Sample.decodeInfo (some Sample.up) (lit "mychannel")).map
          (fun i => (i.network.log, i.network.sent))
        = some (o.network.log, o.network.sent)) ∧
     (∃ o request, QueryPreviousBlockHash Sample.decodeInfo (some Sample.up) (lit "mychannel")
         = some o ∧
      request = ⟨client.RequestKind.evaluate, lit "qscc", lit "GetChainInfo",
        [lit "mychannel"]⟩ ∧
      o.network.log = Sample.up.log ++ [request] ∧
      (Sample.up.fault request = none → o.network.sent = Sample.up.sent ++ [request]) ∧
      (Sample.up.fault request ≠ none → o.network.sent = Sample.up.sent ∧ o.err ≠ none) ∧
      (QueryBlockInfo Sample.decodeInfo (some Sample.up) (lit "mychannel")).map
          (fun i => (i.network.log, i.network.sent))
        = some (o.network.log, o.network.sent)) ∧
     (∃ o request, QueryBlockInfo Sample.decodeInfo (some Sample.up) (lit "mychannel") = some o ∧
      request = ⟨client.RequestKind.evaluate, lit "qscc", lit "GetChainInfo",
        [lit "mychannel"]⟩ ∧
      o.network.log = Sample.up.log ++ [request] ∧
      (Sample.up.fault request = none → o.network.sent = Sample.up.sent ++ [request]) ∧
      (Sample.up.fault request ≠ none → o.network.sent = Sample.up.sent ∧ o.err ≠ none)) ∧
     (∃ o request, QueryBlockByIndex Sample.decodeBlock (some Sample.up) (lit "mychannel")
         (lit "5") = some o ∧
      request = ⟨client.RequestKind.evaluate, lit "qscc", lit "GetBlockByNumber",
        [lit "mychannel", lit "5"]⟩ ∧
      o.network.log = Sample.up.log ++ [request] ∧
      (Sample.up.fault request = none → o.network.sent = Sample.up.sent ++ [request]) ∧
      (Sample.up.fault request ≠ none → o.network.sent = Sample.up.sent ∧ o.err ≠ none)) ∧
     (∃ o request, QueryBlockByHash Sample.decodeBlock (some Sample.up) (lit "mychannel")
         (Slice.mk [255, 254]) = some o ∧
      request = ⟨client.RequestKind.evaluate, lit "qscc", lit "GetBlockByHash",
        [lit "mychannel", GoString.ofBytes (Slice.mk [255, 254])]⟩ ∧
      o.network.log = Sample.up.log ++ [request] ∧
      (Sample.up.fault request = none → o.network.sent = Sample.up.sent ++ [request]) ∧
      (Sample.up.fault request ≠ none → o.network.sent = Sample.up.sent ∧ o.err ≠ none)) ∧
     (∃ o request, QueryBlockByTxID Sample.decodeBlock (some Sample.up) (lit "mychannel")
         (Slice.mk [116, 120]) = some o ∧
      request = ⟨client.RequestKind.evaluate, lit "qscc", lit "GetBlockByTxID",
        [lit "mychannel", GoString.ofBytes (Slice.mk [116, 120])]⟩ ∧
      o.network.log = Sample.up.log ++ [request] ∧
      (Sample.up.fault request = none → o.network.sent = Sample.up.sent ++ [request]) ∧
      (Sample.up.fault request ≠ none → o.network.sent = Sample.up.sent ∧ o.err ≠ none))) :=
  ⟨rfl, one_evaluate_call_at_most_one_request Sample.decodeChannels Sample.decodeInfo Sample.decodeBlock
      (some Sample.up) Sample.up (lit "mychannel") (lit "5") (Slice.mk [255, 254])
      (Slice.mk [116, 120]) rfl⟩

/-- C6 as stated fails when the call fails before anything is issued: on the
sample network whose client was closed, `QueryBlockInfo` makes its evaluate
call, returns nil and the wrapped error of the client, and no request has
been issued to the peer (zero, not one). -/
theorem no_request_when_client_cannot_send :
    (QueryBlockInfo Sample.decodeInfo (some Sample.closed) (lit "mychannel")).map
        (fun o => (o.val, o.err, o.network.log, o.network.sent))
      = some (none, some (GoError.withMessage Sample.closing (lit "failed to get chainInfo: %s")),
          [⟨client.RequestKind.evaluate, lit "qscc", lit "GetChainInfo", [lit "mychannel"]⟩],
          []) ∧
    ¬ (∃ o request, QueryBlockInfo Sample.decodeInfo (some Sample.closed) (lit "mychannel")
        = some o ∧ o.network.sent = Sample.closed.sent ++ [request]) := by
  refine ⟨rfl, ?_⟩
  rintro ⟨o, request, ho, hs⟩
  have h : (QueryBlockInfo Sample.decodeInfo (some Sample.closed) (lit "mychannel")).map
      (fun o => o.network.sent) = some [] := rfl
  rw [ho] at h
  simp only [Option.map_some', Option.some.injEq] at h
  rw [h] at hs
  simp [Sample.closed] at hs

/-- C7: for `QueryChannels`, `QueryBlockInfo`, `QueryBlockByIndex`,
`QueryBlockByHash` and `QueryBlockByTxID`: when the evaluate call fails with
error `e`, the function returns a nil value and `e` wrapped with the fixed
message of the function (the cause of the returned error is `e`), and the
decoder plays no part (the outcome is the same with any other decoder); when
the evaluate call succeeds and the decoder fails with error `d`, the function
returns a nil value and `d` wrapped with the fixed unmarshal message, whatever
the decoder left in the record. -/
theorem failures_return_nil_and_wrapped_cause {Block : Type}
    (UnmarshalChannels UnmarshalChannels2 : Slice Byte → proto.Result peer.ChannelQueryResponse)
    (UnmarshalInfo UnmarshalInfo2 : Slice Byte → proto.Result common.BlockchainInfo)
    (UnmarshalBlock UnmarshalBlock2 : Slice Byte → proto.Result Block)
    (network : client.Network) (channelName height : GoString) (hash TxID : Slice Byte)
    (e d : GoError) :
    (((network.GetContract (lit "cscc")).EvaluateTransaction
        (lit "GetChannels") []).err = some e →
      (QueryChannels UnmarshalChannels (some network)
        = QueryChannels UnmarshalChannels2 (some network) ∧
      (QueryChannels UnmarshalChannels (some network)).map
          (fun o => (o.val, o.err, o.err.bind GoError.Cause))
        = some (Slice.nil, errors.WithMessage (some e) (lit "failed to query channels: %s"),
            some e))) ∧
    (((network.GetContract (lit "cscc")).EvaluateTransaction
        (lit "GetChannels") []).err = none ∧
      (UnmarshalChannels ((network.GetContract (lit "cscc")).EvaluateTransaction
        (lit "GetChannels") []).val).err = some d →
      ((QueryChannels UnmarshalChannels (some network)).map
          (fun o => (o.val, o.err, o.err.bind GoError.Cause))
        = some (Slice.nil, errors.WithMessage (some d) (lit "failed to unmarshal: %s"), some d))) ∧
    (((network.GetContract (lit "qscc")).EvaluateTransaction
        (lit "GetChainInfo") [channelName]).err = some e →
      (QueryBlockInfo UnmarshalInfo (some network) channelName
        = QueryBlockInfo UnmarshalInfo2 (some network) channelName ∧
      (QueryBlockInfo UnmarshalInfo (some network) channelName).map
          (fun o => (o.val, o.err, o.err.bind GoError.Cause))
        = some (none, errors.WithMessage (some e) (lit "failed to get chainInfo: %s"),
            some e))) ∧
    (((network.GetContract (lit "qscc")).EvaluateTransaction
        (lit "GetChainInfo") [channelName]).err = none ∧
      (UnmarshalInfo ((network.GetContract (lit "qscc")).EvaluateTransaction
        (lit "GetChainInfo") [channelName]).val).err = some d →
      ((QueryBlockInfo UnmarshalInfo (some network) channelName).map
          (fun o => (o.val, o.err, o.err.bind GoError.Cause))
        = some (none, errors.WithMessage (some d) (lit "failed to unmarshal: %s"), some d))) ∧
    (((network.GetContract (lit "qscc")).EvaluateTransaction
        (lit "GetBlockByNumber") [channelName, height]).err = some e →
      (QueryBlockByIndex UnmarshalBlock (some network) channelName height
        = QueryBlockByIndex UnmarshalBlock2 (some network) channelName height ∧
      (QueryBlockByIndex UnmarshalBlock (some network) channelName height).map
          (fun o => (o.val, o.err, o.err.bind GoError.Cause))
        = some (none, errors.WithMessage (some e) (lit "failed to query block by index: %s"),
            some e))) ∧
    (((network.GetContract (lit "qscc")).EvaluateTransaction
        (lit "GetBlockByNumber") [channelName, height]).err = none ∧
      (UnmarshalBlock ((network.GetContract (lit "qscc")).EvaluateTransaction
        (lit "GetBlockByNumber") [channelName, height]).val).err = some d →
      ((QueryBlockByIndex UnmarshalBlock (some network) channelName height).map
          (fun o => (o.val, o.err, o.err.bind GoError.Cause))
        = some (none, errors.WithMessage (some d) (lit "failed to unmarshal: %s"), some d))) ∧
    (((network.GetContract (lit "qscc")).EvaluateTransaction
        (lit "GetBlockByHash") [channelName, GoString.ofBytes hash]).err = some e →
      (QueryBlockByHash UnmarshalBlock (some network) channelName hash
        = QueryBlockByHash UnmarshalBlock2 (some network) channelName hash ∧
      (QueryBlockByHash UnmarshalBlock (some network) channelName hash).map
          (fun o => (o.val, o.err, o.err.bind GoError.Cause))
        = some (none, errors.WithMessage (some e) (lit "failed to query block by hash: %s"),
            some e))) ∧
    (((network.GetContract (lit "qscc")).EvaluateTransaction
        (lit "GetBlockByHash") [channelName, GoString.ofBytes hash]).err = none ∧
      (UnmarshalBlock ((network.GetContract (lit "qscc")).EvaluateTransaction
        (lit "GetBlockByHash") [channelName, GoString.ofBytes hash]).val).err = some d →
      ((QueryBlockByHash UnmarshalBlock (some network) channelName hash).map
          (fun o => (o.val, o.err, o.err.bind GoError.Cause))
        = some (none, errors.WithMessage (some d) (lit "failed to unmarshal: %s"), some d))) ∧
    (((network.GetContract (lit "qscc")).EvaluateTransaction
        (lit "GetBlockByTxID") [channelName, GoString.ofBytes TxID]).err = some e →
      (QueryBlockByTxID UnmarshalBlock (some network) channelName TxID
        = QueryBlockByTxID UnmarshalBlock2 (some network) channelName TxID ∧
      (QueryBlockByTxID UnmarshalBlock (some network) channelName TxID).map
          (fun o => (o.val, o.err, o.err.bind GoError.Cause))
        = some (none, errors.WithMessage (some e) (lit "failed to query block by TxID: %s"),
            some e))) ∧
    (((network.GetContract (lit "qscc")).EvaluateTransaction
        (lit "GetBlockByTxID") [channelName, GoString.ofBytes TxID]).err = none ∧
      (UnmarshalBlock ((network.GetContract (lit "qscc")).EvaluateTransaction
        (lit "GetBlockByTxID") [channelName, GoString.ofBytes TxID]).val).err = some d →
      ((QueryBlockByTxID UnmarshalBlock (some network) channelName TxID).map
          (fun o => (o.val, o.err, o.err.bind GoError.Cause))
        = some (none, errors.WithMessage (some d) (lit "failed to unmarshal: %s"), some d))) := by
  refine ⟨?_, ?_, ?_, ?_, ?_, ?_, ?_, ?_, ?_, ?_⟩
  · intro he
    rw [(QueryChannels_cases UnmarshalChannels network).1 e he,
      (QueryChannels_cases UnmarshalChannels2 network).1 e he]
    exact ⟨rfl, rfl⟩
  · intro h
    rw [(QueryChannels_cases UnmarshalChannels network).2.1 d h.1 h.2]
    rfl
  · intro he
    rw [(QueryBlockInfo_cases UnmarshalInfo network channelName).1 e he,
      (QueryBlockInfo_cases UnmarshalInfo2 network channelName).1 e he]
    exact ⟨rfl, rfl⟩
  · intro h
    rw [(QueryBlockInfo_cases UnmarshalInfo network channelName).2.1 d h.1 h.2]
    rfl
  · intro he
    rw [(QueryBlockByIndex_cases UnmarshalBlock network channelName height).1 e he,
      (QueryBlockByIndex_cases UnmarshalBlock2 network channelName height).1 e he]
    exact ⟨rfl, rfl⟩
  · intro h
    rw [(QueryBlockByIndex_cases UnmarshalBlock network channelName height).2.1 d h.1 h.2]
    rfl
  · intro he
    rw [(QueryBlockByHash_cases UnmarshalBlock network channelName hash).1 e he,
      (QueryBlockByHash_cases UnmarshalBlock2 network channelName hash).1 e he]
    exact ⟨rfl, rfl⟩
  · intro h
    rw [(QueryBlockByHash_cases UnmarshalBlock network channelName hash).2.1 d h.1 h.2]
    rfl
  · intro he
    rw [(QueryBlockByTxID_cases UnmarshalBlock network channelName TxID).1 e he,
      (QueryBlockByTxID_cases UnmarshalBlock2 network channelName TxID).1 e he]
    exact ⟨rfl, rfl⟩
  · intro h
    rw [(QueryBlockByTxID_cases UnmarshalBlock network channelName TxID).2.1 d h.1 h.2]
    rfl

/-- C7 on the sample networks: on the network that is down every function
returns nil and the wrapped connection error, and on the network that is up
a failing decoder gives nil and the wrapped decoding error although the
decoder had stored a part of the record. -/
theorem failures_return_nil_and_wrapped_cause_witness :
    ((((Sample.down.GetContract (lit "cscc")).EvaluateTransaction
        (lit "GetChannels") []).err = some Sample.refused) ∧
      (QueryChannels Sample.decodeChannels (some Sample.down)
        = QueryChannels Sample.rejectChannels (some Sample.down) ∧
      (QueryChannels Sample.decodeChannels (some Sample.down)).map
          (fun o => (o.val, o.err, o.err.bind GoError.Cause))
        = some (Slice.nil, errors.WithMessage (some Sample.refused)
            (lit "failed to query channels: %s"),
            some Sample.refused))) ∧
    ((((Sample.up.GetContract (lit "cscc")).EvaluateTransaction
        (lit "GetChannels") []).err = none ∧
      (Sample.rejectChannels ((Sample.up.GetContract (lit "cscc")).EvaluateTransaction
        (lit "GetChannels") []).val).err = some Sample.garbled) ∧
      ((QueryChannels Sample.rejectChannels (some Sample.up)).map
          (fun o => (o.val, o.err, o.err.bind GoError.Cause))
        = some (Slice.nil, errors.WithMessage (some Sample.garbled)
            (lit "failed to unmarshal: %s"), some Sample.garbled))) ∧
    ((((Sample.down.GetContract (lit "qscc")).EvaluateTransaction
        (lit "GetChainInfo") [lit "mychannel"]).err = some Sample.refused) ∧
      (QueryBlockInfo Sample.decodeInfo (some Sample.down) (lit "mychannel")
        = QueryBlockInfo Sample.rejectInfo (some Sample.down) (lit "mychannel") ∧
      (QueryBlockInfo Sample.decodeInfo (some Sample.down) (lit "mychannel")).map
          (fun o => (o.val, o.err, o.err.bind GoError.Cause))
        = some (none, errors.WithMessage (some Sample.refused) (lit "failed to get chainInfo: %s"),
            some Sample.refused))) ∧
    ((((Sample.up.GetContract (lit "qscc")).EvaluateTransaction
        (lit "GetChainInfo") [lit "mychannel"]).err = none ∧
      (Sample.rejectInfo ((Sample.up.GetContract (lit "qscc")).EvaluateTransaction
        (lit "GetChainInfo") [lit "mychannel"]).val).err = some Sample.garbled) ∧
      ((QueryBlockInfo Sample.rejectInfo (some Sample.up) (lit "mychannel")).map
          (fun o => (o.val, o.err, o.err.bind GoError.Cause))
        = some (none, errors.WithMessage (some Sample.garbled) (lit "failed to unmarshal: %s"),
            some Sample.garbled))) ∧
    ((((Sample.down.GetContract (lit "qscc")).EvaluateTransaction
        (lit "GetBlockByNumber") [lit "mychannel", lit "5"]).err = some Sample.refused) ∧
      (QueryBlockByIndex Sample.decodeBlock (some Sample.down) (lit "mychannel") (lit "5")
        = QueryBlockByIndex Sample.rejectBlock (some Sample.down) (lit "mychannel") (lit "5") ∧
      (QueryBlockByIndex Sample.decodeBlock (some Sample.down) (lit "mychannel") (lit "5")).map
          (fun o => (o.val, o.err, o.err.bind GoError.Cause))
        = some (none, errors.WithMessage (some Sample.refused)
            (lit "failed to query block by index: %s"),
            some Sample.refused))) ∧
    ((((Sample.up.GetContract (lit "qscc")).EvaluateTransaction
        (lit "GetBlockByNumber") [lit "mychannel", lit "5"]).err = none ∧
      (Sample.rejectBlock ((Sample.up.GetContract (lit "qscc")).EvaluateTransaction
        (lit "GetBlockByNumber") [lit "mychannel", lit "5"]).val).err = some Sample.garbled) ∧
      ((QueryBlockByIndex Sample.rejectBlock (some Sample.up) (lit "mychannel") (lit "5")).map
          (fun o => (o.val, o.err, o.err.bind GoError.Cause))
        = some (none, errors.WithMessage (some Sample.garbled) (lit "failed to unmarshal: %s"),
            some Sample.garbled))) ∧
    ((((Sample.down.GetContract (lit "qscc")).EvaluateTransaction
        (lit "GetBlockByHash") [lit "mychannel", GoString.ofBytes (Slice.mk [255, 254])]).err
            = some Sample.refused) ∧
      (QueryBlockByHash Sample.decodeBlock (some Sample.down) (lit "mychannel")
          (Slice.mk [255, 254])
        = QueryBlockByHash Sample.rejectBlock (some Sample.down) (lit "mychannel")
            (Slice.mk [255, 254]) ∧
      (QueryBlockByHash Sample.decodeBlock (some Sample.down) (lit "mychannel")
          (Slice.mk [255, 254])).map
          (fun o => (o.val, o.err, o.err.bind GoError.Cause))
        = some (none, errors.WithMessage (some Sample.refused)
            (lit "failed to query block by hash: %s"),
            some Sample.refused))) ∧
    ((((Sample.up.GetContract (lit "qscc")).EvaluateTransaction
        (lit "GetBlockByHash") [lit "mychannel", GoString.ofBytes (Slice.mk [255, 254])]).err
            = none ∧
      (Sample.rejectBlock ((Sample.up.GetContract (lit "qscc")).EvaluateTransaction
        (lit "GetBlockByHash") [lit "mychannel", GoString.ofBytes (Slice.mk [255, 254])]).val).err
            = some Sample.garbled) ∧
      ((QueryBlockByHash Sample.rejectBlock (some Sample.up) (lit "mychannel")
          (Slice.mk [255, 254])).map
          (fun o => (o.val, o.err, o.err.bind GoError.Cause))
        = some (none, errors.WithMessage (some Sample.garbled) (lit "failed to unmarshal: %s"),
            some Sample.garbled))) ∧
    ((((Sample.down.GetContract (lit "qscc")).EvaluateTransaction
        (lit "GetBlockByTxID") [lit "mychannel", GoString.ofBytes (Slice.mk [116, 120])]).err
            = some Sample.refused) ∧
      (QueryBlockByTxID Sample.decodeBlock (some Sample.down) (lit "mychannel")
          (Slice.mk [116, 120])
        = QueryBlockByTxID Sample.rejectBlock (some Sample.down) (lit "mychannel")
            (Slice.mk [116, 120]) ∧
      (QueryBlockByTxID Sample.decodeBlock (some Sample.down) (lit "mychannel")
          (Slice.mk [116, 120])).map
          (fun o => (o.val, o.err, o.err.bind GoError.Cause))
        = some (none, errors.WithMessage (some Sample.refused)
            (lit "failed to query block by TxID: %s"),
            some Sample.refused))) ∧
    ((((Sample.up.GetContract (lit "qscc")).EvaluateTransaction
        (lit "GetBlockByTxID") [lit "mychannel", GoString.ofBytes (Slice.mk [116, 120])]).err
            = none ∧
      (Sample.rejectBlock ((Sample.up.GetContract (lit "qscc")).EvaluateTransaction
        (lit "GetBlockByTxID") [lit "mychannel", GoString.ofBytes (Slice.mk [116, 120])]).val).err
            = some Sample.garbled) ∧
      ((QueryBlockByTxID Sample.rejectBlock (some Sample.up) (lit "mychannel")
          (Slice.mk [116, 120])).map
          (fun o => (o.val, o.err, o.err.bind GoError.Cause))
        = some (none, errors.WithMessage (some Sample.garbled) (lit "failed to unmarshal: %s"),
            some Sample.garbled))) :=
  ⟨⟨rfl, (failures_return_nil_and_wrapped_cause
      Sample.decodeChannels Sample.rejectChannels Sample.decodeInfo Sample.rejectInfo
      Sample.decodeBlock Sample.rejectBlock Sample.down (lit "mychannel") (lit "5")
      (Slice.mk [255, 254]) (Slice.mk [116, 120]) Sample.refused Sample.garbled).1 rfl⟩,
   ⟨⟨rfl, rfl⟩, (failures_return_nil_and_wrapped_cause
      Sample.rejectChannels Sample.decodeChannels Sample.rejectInfo Sample.decodeInfo
      Sample.rejectBlock Sample.decodeBlock Sample.up (lit "mychannel") (lit "5")
      (Slice.mk [255, 254]) (Slice.mk [116, 120]) Sample.refused Sample.garbled).2.1 ⟨rfl, rfl⟩⟩,
   ⟨rfl, (failures_return_nil_and_wrapped_cause
      Sample.decodeChannels Sample.rejectChannels Sample.decodeInfo Sample.rejectInfo
      Sample.decodeBlock Sample.rejectBlock Sample.down (lit "mychannel") (lit "5")
      (Slice.mk [255, 254]) (Slice.mk [116, 120]) Sample.refused Sample.garbled).2.2.1 rfl⟩,
   ⟨⟨rfl, rfl⟩, (failures_return_nil_and_wrapped_cause
      Sample.rejectChannels Sample.decodeChannels Sample.rejectInfo Sample.decodeInfo
      Sample.rejectBlock Sample.decodeBlock Sample.up (lit "mychannel") (lit "5")
      (Slice.mk [255, 254]) (Slice.mk [116, 120]) Sample.refused Sample.garbled).2.2.2.1
          ⟨rfl, rfl⟩⟩,
   ⟨rfl, (failures_return_nil_and_wrapped_cause
      Sample.decodeChannels Sample.rejectChannels Sample.decodeInfo Sample.rejectInfo
      Sample.decodeBlock Sample.rejectBlock Sample.down (lit "mychannel") (lit "5")
      (Slice.mk [255, 254]) (Slice.mk [116, 120]) Sample.refused Sample.garbled).2.2.2.2.1 rfl⟩,
   ⟨⟨rfl, rfl⟩, (failures_return_nil_and_wrapped_cause
      Sample.rejectChannels Sample.decodeChannels Sample.rejectInfo Sample.decodeInfo
      Sample.rejectBlock Sample.decodeBlock Sample.up (lit "mychannel") (lit "5")
      (Slice.mk [255, 254]) (Slice.mk [116, 120]) Sample.refused Sample.garbled).2.2.2.2.2.1
          ⟨rfl, rfl⟩⟩,
   ⟨rfl, (failures_return_nil_and_wrapped_cause
      Sample.decodeChannels Sample.rejectChannels Sample.decodeInfo Sample.rejectInfo
      Sample.decodeBlock Sample.rejectBlock Sample.down (lit "mychannel") (lit "5")
      (Slice.mk [255, 254]) (Slice.mk [116, 120]) Sample.refused Sample.garbled).2.2.2.2.2.2.1 rfl⟩,
   ⟨⟨rfl, rfl⟩, (failures_return_nil_and_wrapped_cause
      Sample.rejectChannels Sample.decodeChannels Sample.rejectInfo Sample.decodeInfo
      Sample.rejectBlock Sample.decodeBlock Sample.up (lit "mychannel") (lit "5")
      (Slice.mk [255, 254]) (Slice.mk [116, 120]) Sample.refused Sample.garbled).2.2.2.2.2.2.2.1
          ⟨rfl, rfl⟩⟩,
   ⟨rfl, (failures_return_nil_and_wrapped_cause
      Sample.decodeChannels Sample.rejectChannels Sample.decodeInfo Sample.rejectInfo
      Sample.decodeBlock Sample.rejectBlock Sample.down (lit "mychannel") (lit "5")
      (Slice.mk [255, 254])
          (Slice.mk [116, 120]) Sample.refused Sample.garbled).2.2.2.2.2.2.2.2.1 rfl⟩,
   ⟨⟨rfl, rfl⟩, (failures_return_nil_and_wrapped_cause
      Sample.rejectChannels Sample.decodeChannels Sample.rejectInfo Sample.decodeInfo
      Sample.rejectBlock Sample.decodeBlock Sample.up (lit "mychannel") (lit "5")
      (Slice.mk [255, 254]) (Slice.mk [116, 120]) Sample.refused Sample.garbled).2.2.2.2.2.2.2.2.2
          ⟨rfl, rfl⟩⟩⟩

/-- C8: when `QueryBlockInfo` returns error `e`, `QueryBlockHeight` returns the
value `2^64 - 1` together with `e` itself, and `QueryCurrentBlockHash` and
`QueryPreviousBlockHash` return a nil slice together with `e` itself (no
second wrapping). The height `2^64 - 1` is also what `QueryBlockHeight`
returns, with a nil error, on any network and decoder for which
`QueryBlockInfo` succeeds with a decoded `Height` of `2^64 - 1`: the two cases
differ by the error only. -/
theorem failure_values_of_narrowed_queries
    (Unmarshal : Slice Byte → proto.Result common.BlockchainInfo)
    (network : Option client.Network) (channelName : GoString) (e : GoError)
    (hErr : (QueryBlockInfo Unmarshal network channelName).map (fun o => o.err)
      = some (some e)) :
    (QueryBlockHeight Unmarshal network channelName).map (fun o => (o.val.val, o.err))
      = some (2 ^ 64 - 1, some e) ∧
    (QueryCurrentBlockHash Unmarshal network channelName).map (fun o => (o.val, o.err))
      = some (Slice.nil, some e) ∧
    (QueryPreviousBlockHash Unmarshal network channelName).map (fun o => (o.val, o.err))
      = some (Slice.nil, some e) ∧
    (∀ (Unmarshal2 : Slice Byte → proto.Result common.BlockchainInfo)
      (network2 : Option client.Network) (channelName2 : GoString)
      (r : common.BlockchainInfo),
      (QueryBlockInfo Unmarshal2 network2 channelName2).map (fun o => o.err) = some none →
      (QueryBlockInfo Unmarshal2 network2 channelName2).map (fun o => o.val)
        = some (some r) →
      r.Height.val = 2 ^ 64 - 1 →
      (QueryBlockHeight Unmarshal2 network2 channelName2).map (fun o => o.val)
        = (QueryBlockHeight Unmarshal network channelName).map (fun o => o.val) ∧
      (QueryBlockHeight Unmarshal2 network2 channelName2).map (fun o => o.err)
        = some none) := by
  obtain ⟨o, ho, he⟩ := Option.map_eq_some'.mp hErr
  refine ⟨?_, ?_, ?_, ?_⟩
  · rw [(QueryBlockHeight_cases Unmarshal network channelName o ho).1 e he]; rfl
  · rw [(QueryCurrentBlockHash_cases Unmarshal network channelName o ho).1 e he]; rfl
  · rw [(QueryPreviousBlockHash_cases Unmarshal network channelName o ho).1 e he]; rfl
  · intro Unmarshal2 network2 channelName2 r h2 hv hmax
    obtain ⟨o2, ho2, he2⟩ := Option.map_eq_some'.mp h2
    have hv2 : o2.val = some r := by
      rw [ho2] at hv
      simpa using hv
    rw [(QueryBlockHeight_cases Unmarshal network channelName o ho).1 e he,
      (QueryBlockHeight_cases Unmarshal2 network2 channelName2 o2 ho2).2 r he2 hv2]
    refine ⟨?_, rfl⟩
    simp only [Option.map_some', Option.some.injEq]
    exact Fin.ext hmax

/-- C8 on the sample networks: the network that is down gives `2^64 - 1` and
the error of `QueryBlockInfo`; the network that is up, whose decoded height is
`2^64 - 1`, gives the same height and a nil error. -/
theorem failure_values_of_narrowed_queries_witness :
    (QueryBlockInfo Sample.decodeInfo (some Sample.down) (lit "mychannel")).map
        (fun o => o.err)
      = some (some (GoError.withMessage Sample.refused (lit "failed to get chainInfo: %s"))) ∧
    ((QueryBlockHeight Sample.decodeInfo (some Sample.down) (lit "mychannel")).map
        (fun o => (o.val.val, o.err))
      = some (18446744073709551615, some (GoError.withMessage Sample.refused
          (lit "failed to get chainInfo: %s"))) ∧
    (QueryCurrentBlockHash Sample.decodeInfo (some Sample.down) (lit "mychannel")).map
        (fun o => (o.val, o.err))
      = some (Slice.nil, some (GoError.withMessage Sample.refused
          (lit "failed to get chainInfo: %s"))) ∧
    (QueryPreviousBlockHash Sample.decodeInfo (some Sample.down) (lit "mychannel")).map
        (fun o => (o.val, o.err))
      = some (Slice.nil, some (GoError.withMessage Sample.refused
          (lit "failed to get chainInfo: %s")))) ∧
    ((QueryBlockInfo Sample.decodeInfo (some Sample.up) (lit "mychannel")).map
        (fun o => o.err) = some none ∧
      (QueryBlockHeight Sample.decodeInfo (some Sample.up) (lit "mychannel")).map
          (fun o => o.val)
        = (QueryBlockHeight Sample.decodeInfo (some Sample.down) (lit "mychannel")).map
            (fun o => o.val) ∧
      (QueryBlockHeight Sample.decodeInfo (some Sample.up) (lit "mychannel")).map
          (fun o => o.err)
        = some none) :=
  ⟨rfl,
   ⟨(failure_values_of_narrowed_queries Sample.decodeInfo (some Sample.down)
      (lit "mychannel") (GoError.withMessage Sample.refused
          (lit "failed to get chainInfo: %s")) rfl).1,
    (failure_values_of_narrowed_queries Sample.decodeInfo (some Sample.down)
      (lit "mychannel") (GoError.withMessage Sample.refused
          (lit "failed to get chainInfo: %s")) rfl).2.1,
    (failure_values_of_narrowed_queries Sample.decodeInfo (some Sample.down)
      (lit "mychannel") (GoError.withMessage Sample.refused
          (lit "failed to get chainInfo: %s")) rfl).2.2.1⟩,
   ⟨rfl,
    (failure_values_of_narrowed_queries Sample.decodeInfo (some Sample.down)
      (lit "mychannel") (GoError.withMessage Sample.refused
          (lit "failed to get chainInfo: %s")) rfl).2.2.2
      Sample.decodeInfo (some Sample.up) (lit "mychannel")
      ⟨18446744073709551615, Slice.mk [8, 7], Slice.mk [3]⟩ rfl rfl rfl⟩⟩

/-- C9: the wrap messages are not formatted. For `QueryChannels`,
`QueryBlockInfo`, `QueryBlockByIndex`, `QueryBlockByHash` and
`QueryBlockByTxID`, when the evaluate call fails with error `e` the text of
the returned error is the fixed message of the function, its two characters
"%s" included, then ": ", then the text of `e`; when the decoder fails with
error `d` the text is "failed to unmarshal: %s: " followed by the text of `d`. -/
theorem error_text_keeps_the_placeholder {Block : Type}
    (UnmarshalChannels : Slice Byte → proto.Result peer.ChannelQueryResponse)
    (UnmarshalInfo : Slice Byte → proto.Result common.BlockchainInfo)
    (UnmarshalBlock : Slice Byte → proto.Result Block)
    (network : client.Network) (channelName height : GoString) (hash TxID : Slice Byte)
    (e d : GoError) :
    (((network.GetContract (lit "cscc")).EvaluateTransaction
        (lit "GetChannels") []).err = some e →
      (QueryChannels UnmarshalChannels (some network)).map
          (fun o => o.err.map GoError.Error)
        = some (some (lit "failed to query channels: %s: " ++ e.Error))) ∧
    (((network.GetContract (lit "cscc")).EvaluateTransaction
        (lit "GetChannels") []).err = none ∧
      (UnmarshalChannels ((network.GetContract (lit "cscc")).EvaluateTransaction
        (lit "GetChannels") []).val).err = some d →
      (QueryChannels UnmarshalChannels (some network)).map
          (fun o => o.err.map GoError.Error)
        = some (some (lit "failed to unmarshal: %s: " ++ d.Error))) ∧
    (((network.GetContract (lit "qscc")).EvaluateTransaction
        (lit "GetChainInfo") [channelName]).err = some e →
      (QueryBlockInfo UnmarshalInfo (some network) channelName).map
          (fun o => o.err.map GoError.Error)
        = some (some (lit "failed to get chainInfo: %s: " ++ e.Error))) ∧
    (((network.GetContract (lit "qscc")).EvaluateTransaction
        (lit "GetChainInfo") [channelName]).err = none ∧
      (UnmarshalInfo ((network.GetContract (lit "qscc")).EvaluateTransaction
        (lit "GetChainInfo") [channelName]).val).err = some d →
      (QueryBlockInfo UnmarshalInfo (some network) channelName).map
          (fun o => o.err.map GoError.Error)
        = some (some (lit "failed to unmarshal: %s: " ++ d.Error))) ∧
    (((network.GetContract (lit "qscc")).EvaluateTransaction
        (lit "GetBlockByNumber") [channelName, height]).err = some e →
      (QueryBlockByIndex UnmarshalBlock (some network) channelName height).map
          (fun o => o.err.map GoError.Error)
        = some (some (lit "failed to query block by index: %s: " ++ e.Error))) ∧
    (((network.GetContract (lit "qscc")).EvaluateTransaction
        (lit "GetBlockByNumber") [channelName, height]).err = none ∧
      (UnmarshalBlock ((network.GetContract (lit "qscc")).EvaluateTransaction
        (lit "GetBlockByNumber") [channelName, height]).val).err = some d →
      (QueryBlockByIndex UnmarshalBlock (some network) channelName height).map
          (fun o => o.err.map GoError.Error)
        = some (some (lit "failed to unmarshal: %s: " ++ d.Error))) ∧
    (((network.GetContract (lit "qscc")).EvaluateTransaction
        (lit "GetBlockByHash") [channelName, GoString.ofBytes hash]).err = some e →
      (QueryBlockByHash UnmarshalBlock (some network) channelName hash).map
          (fun o => o.err.map GoError.Error)
        = some (some (lit "failed to query block by hash: %s: " ++ e.Error))) ∧
    (((network.GetContract (lit "qscc")).EvaluateTransaction
        (lit "GetBlockByHash") [channelName, GoString.ofBytes hash]).err = none ∧
      (UnmarshalBlock ((network.GetContract (lit "qscc")).EvaluateTransaction
        (lit "GetBlockByHash") [channelName, GoString.ofBytes hash]).val).err = some d →
      (QueryBlockByHash UnmarshalBlock (some network) channelName hash).map
          (fun o => o.err.map GoError.Error)
        = some (some (lit "failed to unmarshal: %s: " ++ d.Error))) ∧
    (((network.GetContract (lit "qscc")).EvaluateTransaction
        (lit "GetBlockByTxID") [channelName, GoString.ofBytes TxID]).err = some e →
      (QueryBlockByTxID UnmarshalBlock (some network) channelName TxID).map
          (fun o => o.err.map GoError.Error)
        = some (some (lit "failed to query block by TxID: %s: " ++ e.Error))) ∧
    (((network.GetContract (lit "qscc")).EvaluateTransaction
        (lit "GetBlockByTxID") [channelName, GoString.ofBytes TxID]).err = none ∧
      (UnmarshalBlock ((network.GetContract (lit "qscc")).EvaluateTransaction
        (lit "GetBlockByTxID") [channelName, GoString.ofBytes TxID]).val).err = some d →
      (QueryBlockByTxID UnmarshalBlock (some network) channelName TxID).map
          (fun o => o.err.map GoError.Error)
        = some (some (lit "failed to unmarshal: %s: " ++ d.Error))) := by
  refine ⟨?_, ?_, ?_, ?_, ?_, ?_, ?_, ?_, ?_, ?_⟩
  · intro he
    rw [(QueryChannels_cases UnmarshalChannels network).1 e he]
    show some (some (lit "failed to query channels: %s" ++ lit ": " ++ e.Error)) = _
    rw [show lit "failed to query channels: %s" ++ lit ": "
      = lit "failed to query channels: %s: " from by decide]
  · intro h
    rw [(QueryChannels_cases UnmarshalChannels network).2.1 d h.1 h.2]
    show some (some (lit "failed to unmarshal: %s" ++ lit ": " ++ d.Error)) = _
    rw [show lit "failed to unmarshal: %s" ++ lit ": "
        = lit "failed to unmarshal: %s: " from by decide]
  · intro he
    rw [(QueryBlockInfo_cases UnmarshalInfo network channelName).1 e he]
    show some (some (lit "failed to get chainInfo: %s" ++ lit ": " ++ e.Error)) = _
    rw [show lit "failed to get chainInfo: %s" ++ lit ": "
      = lit "failed to get chainInfo: %s: " from by decide]
  · intro h
    rw [(QueryBlockInfo_cases UnmarshalInfo network channelName).2.1 d h.1 h.2]
    show some (some (lit "failed to unmarshal: %s" ++ lit ": " ++ d.Error)) = _
    rw [show lit "failed to unmarshal: %s" ++ lit ": "
        = lit "failed to unmarshal: %s: " from by decide]
  · intro he
    rw [(QueryBlockByIndex_cases UnmarshalBlock network channelName height).1 e he]
    show some (some (lit "failed to query block by index: %s" ++ lit ": " ++ e.Error)) = _
    rw [show lit "failed to query block by index: %s" ++ lit ": "
      = lit "failed to query block by index: %s: " from by decide]
  · intro h
    rw [(QueryBlockByIndex_cases UnmarshalBlock network channelName height).2.1 d h.1 h.2]
    show some (some (lit "failed to unmarshal: %s" ++ lit ": " ++ d.Error)) = _
    rw [show lit "failed to unmarshal: %s" ++ lit ": "
        = lit "failed to unmarshal: %s: " from by decide]
  · intro he
    rw [(QueryBlockByHash_cases UnmarshalBlock network channelName hash).1 e he]
    show some (some (lit "failed to query block by hash: %s" ++ lit ": " ++ e.Error)) = _
    rw [show lit "failed to query block by hash: %s" ++ lit ": "
      = lit "failed to query block by hash: %s: " from by decide]
  · intro h
    rw [(QueryBlockByHash_cases UnmarshalBlock network channelName hash).2.1 d h.1 h.2]
    show some (some (lit "failed to unmarshal: %s" ++ lit ": " ++ d.Error)) = _
    rw [show lit "failed to unmarshal: %s" ++ lit ": "
        = lit "failed to unmarshal: %s: " from by decide]
  · intro he
    rw [(QueryBlockByTxID_cases UnmarshalBlock network channelName TxID).1 e he]
    show some (some (lit "failed to query block by TxID: %s" ++ lit ": " ++ e.Error)) = _
    rw [show lit "failed to query block by TxID: %s" ++ lit ": "
      = lit "failed to query block by TxID: %s: " from by decide]
  · intro h
    rw [(QueryBlockByTxID_cases UnmarshalBlock network channelName TxID).2.1 d h.1 h.2]
    show some (some (lit "failed to unmarshal: %s" ++ lit ": " ++ d.Error)) = _
    rw [show lit "failed to unmarshal: %s" ++ lit ": "
        = lit "failed to unmarshal: %s: " from by decide]

/-- C9 on the sample networks: the texts read "...: %s: connection refused"
and "failed to unmarshal: %s: proto: cannot parse invalid wire-format data". -/
theorem error_text_keeps_the_placeholder_witness :
    ((((Sample.down.GetContract (lit "cscc")).EvaluateTransaction
        (lit "GetChannels") []).err = some Sample.refused) ∧
      (QueryChannels Sample.decodeChannels (some Sample.down)).map
          (fun o => o.err.map GoError.Error)
        = some (some (lit "failed to query channels: %s: connection refused"))) ∧
    ((((Sample.up.GetContract (lit "cscc")).EvaluateTransaction
        (lit "GetChannels") []).err = none ∧
      (Sample.rejectChannels ((Sample.up.GetContract (lit "cscc")).EvaluateTransaction
        (lit "GetChannels") []).val).err = some Sample.garbled) ∧
      (QueryChannels Sample.rejectChannels (some Sample.up)).map
          (fun o => o.err.map GoError.Error)
        = some (some (lit
            "failed to unmarshal: %s: proto: cannot parse invalid wire-format data"))) ∧
    ((((Sample.down.GetContract (lit "qscc")).EvaluateTransaction
        (lit "GetChainInfo") [lit "mychannel"]).err = some Sample.refused) ∧
      (QueryBlockInfo Sample.decodeInfo (some Sample.down) (lit "mychannel")).map
          (fun o => o.err.map GoError.Error)
        = some (some (lit "failed to get chainInfo: %s: connection refused"))) ∧
    ((((Sample.up.GetContract (lit "qscc")).EvaluateTransaction
        (lit "GetChainInfo") [lit "mychannel"]).err = none ∧
      (Sample.rejectInfo ((Sample.up.GetContract (lit "qscc")).EvaluateTransaction
        (lit "GetChainInfo") [lit "mychannel"]).val).err = some Sample.garbled) ∧
      (QueryBlockInfo Sample.rejectInfo (some Sample.up) (lit "mychannel")).map
          (fun o => o.err.map GoError.Error)
        = some (some (lit
            "failed to unmarshal: %s: proto: cannot parse invalid wire-format data"))) ∧
    ((((Sample.down.GetContract (lit "qscc")).EvaluateTransaction
        (lit "GetBlockByNumber") [lit "mychannel", lit "5"]).err = some Sample.refused) ∧
      (QueryBlockByIndex Sample.decodeBlock (some Sample.down) (lit "mychannel") (lit "5")).map
          (fun o => o.err.map GoError.Error)
        = some (some (lit "failed to query block by index: %s: connection refused"))) ∧
    ((((Sample.up.GetContract (lit "qscc")).EvaluateTransaction
        (lit "GetBlockByNumber") [lit "mychannel", lit "5"]).err = none ∧
      (Sample.rejectBlock ((Sample.up.GetContract (lit "qscc")).EvaluateTransaction
        (lit "GetBlockByNumber") [lit "mychannel", lit "5"]).val).err = some Sample.garbled) ∧
      (QueryBlockByIndex Sample.rejectBlock (some Sample.up) (lit "mychannel") (lit "5")).map
          (fun o => o.err.map GoError.Error)
        = some (some (lit
            "failed to unmarshal: %s: proto: cannot parse invalid wire-format data"))) ∧
    ((((Sample.down.GetContract (lit "qscc")).EvaluateTransaction
        (lit "GetBlockByHash") [lit "mychannel", GoString.ofBytes (Slice.mk [255, 254])]).err
            = some Sample.refused) ∧
      (QueryBlockByHash Sample.decodeBlock (some Sample.down) (lit "mychannel")
          (Slice.mk [255, 254])).map
          (fun o => o.err.map GoError.Error)
        = some (some (lit "failed to query block by hash: %s: connection refused"))) ∧
    ((((Sample.up.GetContract (lit "qscc")).EvaluateTransaction
        (lit "GetBlockByHash") [lit "mychannel", GoString.ofBytes (Slice.mk [255, 254])]).err
            = none ∧
      (Sample.rejectBlock ((Sample.up.GetContract (lit "qscc")).EvaluateTransaction
        (lit "GetBlockByHash") [lit "mychannel", GoString.ofBytes (Slice.mk [255, 254])]).val).err
            = some Sample.garbled) ∧
      (QueryBlockByHash Sample.rejectBlock (some Sample.up) (lit "mychannel")
          (Slice.mk [255, 254])).map
          (fun o => o.err.map GoError.Error)
        = some (some (lit
            "failed to unmarshal: %s: proto: cannot parse invalid wire-format data"))) ∧
    ((((Sample.down.GetContract (lit "qscc")).EvaluateTransaction
        (lit "GetBlockByTxID") [lit "mychannel", GoString.ofBytes (Slice.mk [116, 120])]).err
            = some Sample.refused) ∧
      (QueryBlockByTxID Sample.decodeBlock (some Sample.down) (lit "mychannel")
          (Slice.mk [116, 120])).map
          (fun o => o.err.map GoError.Error)
        = some (some (lit "failed to query block by TxID: %s: connection refused"))) ∧
    ((((Sample.up.GetContract (lit "qscc")).EvaluateTransaction
        (lit "GetBlockByTxID") [lit "mychannel", GoString.ofBytes (Slice.mk [116, 120])]).err
            = none ∧
      (Sample.rejectBlock ((Sample.up.GetContract (lit "qscc")).EvaluateTransaction
        (lit "GetBlockByTxID") [lit "mychannel", GoString.ofBytes (Slice.mk [116, 120])]).val).err
            = some Sample.garbled) ∧
      (QueryBlockByTxID Sample.rejectBlock (some Sample.up) (lit "mychannel")
          (Slice.mk [116, 120])).map
          (fun o => o.err.map GoError.Error)
        = some (some (lit
            "failed to unmarshal: %s: proto: cannot parse invalid wire-format data"))) :=
  ⟨⟨rfl, (error_text_keeps_the_placeholder
      Sample.decodeChannels Sample.decodeInfo Sample.decodeBlock Sample.down
      (lit "mychannel") (lit "5") (Slice.mk [255, 254])
          (Slice.mk [116, 120]) Sample.refused Sample.garbled).1 rfl⟩,
   ⟨⟨rfl, rfl⟩, (error_text_keeps_the_placeholder
      Sample.rejectChannels Sample.rejectInfo Sample.rejectBlock Sample.up
      (lit "mychannel") (lit "5") (Slice.mk [255, 254])
          (Slice.mk [116, 120]) Sample.refused Sample.garbled).2.1 ⟨rfl, rfl⟩⟩,
   ⟨rfl, (error_text_keeps_the_placeholder
      Sample.decodeChannels Sample.decodeInfo Sample.decodeBlock Sample.down
      (lit "mychannel") (lit "5") (Slice.mk [255, 254])
          (Slice.mk [116, 120]) Sample.refused Sample.garbled).2.2.1 rfl⟩,
   ⟨⟨rfl, rfl⟩, (error_text_keeps_the_placeholder
      Sample.rejectChannels Sample.rejectInfo Sample.rejectBlock Sample.up
      (lit "mychannel") (lit "5") (Slice.mk [255, 254])
          (Slice.mk [116, 120]) Sample.refused Sample.garbled).2.2.2.1 ⟨rfl, rfl⟩⟩,
   ⟨rfl, (error_text_keeps_the_placeholder
      Sample.decodeChannels Sample.decodeInfo Sample.decodeBlock Sample.down
      (lit "mychannel") (lit "5") (Slice.mk [255, 254])
          (Slice.mk [116, 120]) Sample.refused Sample.garbled).2.2.2.2.1 rfl⟩,
   ⟨⟨rfl, rfl⟩, (error_text_keeps_the_placeholder
      Sample.rejectChannels Sample.rejectInfo Sample.rejectBlock Sample.up
      (lit "mychannel") (lit "5") (Slice.mk [255, 254])
          (Slice.mk [116, 120]) Sample.refused Sample.garbled).2.2.2.2.2.1 ⟨rfl, rfl⟩⟩,
   ⟨rfl, (error_text_keeps_the_placeholder
      Sample.decodeChannels Sample.decodeInfo Sample.decodeBlock Sample.down
      (lit "mychannel") (lit "5") (Slice.mk [255, 254])
          (Slice.mk [116, 120]) Sample.refused Sample.garbled).2.2.2.2.2.2.1 rfl⟩,
   ⟨⟨rfl, rfl⟩, (error_text_keeps_the_placeholder
      Sample.rejectChannels Sample.rejectInfo Sample.rejectBlock Sample.up
      (lit "mychannel") (lit "5") (Slice.mk [255, 254])
          (Slice.mk [116, 120]) Sample.refused Sample.garbled).2.2.2.2.2.2.2.1 ⟨rfl, rfl⟩⟩,
   ⟨rfl, (error_text_keeps_the_placeholder
      Sample.decodeChannels Sample.decodeInfo Sample.decodeBlock Sample.down
      (lit "mychannel") (lit "5") (Slice.mk [255, 254])
          (Slice.mk [116, 120]) Sample.refused Sample.garbled).2.2.2.2.2.2.2.2.1 rfl⟩,
   ⟨⟨rfl, rfl⟩, (error_text_keeps_the_placeholder
      Sample.rejectChannels Sample.rejectInfo Sample.rejectBlock Sample.up
      (lit "mychannel") (lit "5") (Slice.mk [255, 254])
          (Slice.mk [116, 120]) Sample.refused Sample.garbled).2.2.2.2.2.2.2.2.2 ⟨rfl, rfl⟩⟩⟩

/-- C10: for every byte slice (nil, empty, valid UTF-8 or not), the request of
`QueryBlockByHash`, and that of `QueryBlockByTxID`, carries as second argument
a string whose bytes are the bytes of the slice, in order and as many;
converting the argument back to bytes gives the same byte sequence; and two
calls that differ only by byte sequences that differ send different requests. -/
theorem hash_and_txid_sent_byte_for_byte {Block : Type}
    (UnmarshalBlock : Slice Byte → proto.Result Block)
    (network : client.Network) (channelName : GoString) (hash TxID : Slice Byte) :
    (∃ s, (QueryBlockByHash UnmarshalBlock (some network) channelName hash).map
          (fun o => o.network.log)
        = some (network.log ++
            [⟨client.RequestKind.evaluate, lit "qscc", lit "GetBlockByHash",
              [channelName, s]⟩]) ∧
      s.bytes = hash.toList ∧ s.len = hash.len ∧ s.toBytes.toList = hash.toList) ∧
    (∃ s, (QueryBlockByTxID UnmarshalBlock (some network) channelName TxID).map
          (fun o => o.network.log)
        = some (network.log ++
            [⟨client.RequestKind.evaluate, lit "qscc", lit "GetBlockByTxID",
              [channelName, s]⟩]) ∧
      s.bytes = TxID.toList ∧ s.len = TxID.len ∧ s.toBytes.toList = TxID.toList) ∧
    (∀ other : Slice Byte,
      (QueryBlockByHash UnmarshalBlock (some network) channelName hash).map
          (fun o => o.network.log)
        = (QueryBlockByHash UnmarshalBlock (some network) channelName other).map
            (fun o => o.network.log) →
      hash.toList = other.toList) ∧
    (∀ other : Slice Byte,
      (QueryBlockByTxID UnmarshalBlock (some network) channelName TxID).map
          (fun o => o.network.log)
        = (QueryBlockByTxID UnmarshalBlock (some network) channelName other).map
            (fun o => o.network.log) →
      TxID.toList = other.toList) := by
  refine ⟨?_, ?_, ?_, ?_⟩
  · obtain ⟨o, ho, hn, _⟩ := QueryBlockByHash_trace UnmarshalBlock network channelName hash
    refine ⟨GoString.ofBytes hash, ?_, rfl, rfl, rfl⟩
    rw [ho]
    show some o.network.log = _
    rw [hn, (EvaluateTransaction_trace _ _ _).1]
    rfl
  · obtain ⟨o, ho, hn, _⟩ := QueryBlockByTxID_trace UnmarshalBlock network channelName TxID
    refine ⟨GoString.ofBytes TxID, ?_, rfl, rfl, rfl⟩
    rw [ho]
    show some o.network.log = _
    rw [hn, (EvaluateTransaction_trace _ _ _).1]
    rfl
  · intro other h
    obtain ⟨o, ho, hn, _⟩ := QueryBlockByHash_trace UnmarshalBlock network channelName hash
    obtain ⟨o2, ho2, hn2, _⟩ := QueryBlockByHash_trace UnmarshalBlock network channelName other
    rw [ho, ho2] at h
    have h1 : o.network.log = o2.network.log := Option.some.inj h
    rw [hn, hn2, (EvaluateTransaction_trace _ _ _).1, (EvaluateTransaction_trace _ _ _).1] at h1
    have h2 := List.append_cancel_left h1
    simp only [List.cons.injEq, client.Request.mk.injEq, and_true, true_and] at h2
    exact congrArg GoString.bytes h2
  · intro other h
    obtain ⟨o, ho, hn, _⟩ := QueryBlockByTxID_trace UnmarshalBlock network channelName TxID
    obtain ⟨o2, ho2, hn2, _⟩ := QueryBlockByTxID_trace UnmarshalBlock network channelName other
    rw [ho, ho2] at h
    have h1 : o.network.log = o2.network.log := Option.some.inj h
    rw [hn, hn2, (EvaluateTransaction_trace _ _ _).1, (EvaluateTransaction_trace _ _ _).1] at h1
    have h2 := List.append_cancel_left h1
    simp only [List.cons.injEq, client.Request.mk.injEq, and_true, true_and] at h2
    exact congrArg GoString.bytes h2

end blockinfo
